import Mathlib

set_option maxHeartbeats 1600000

/-!
Verification development for the CRM-Term interactive terminal CRM.

The Go source (internal/ui/model.go, internal/storage/storage.go) is shallowly
embedded below.  Go strings are modelled as lists of characters (`Str`), which
matches byte-wise comparison of ASCII text after the trimming/lowering the UI
performs.  Machine integers (`int64`, account ids, nanosecond timestamps) are
modelled as `Int`; none of the embedded code can overflow 64 bits on the inputs
considered.  External collaborators (the Go time parsing routines, timezone
database, config persistence and CSV import) are modelled as oracle functions
carried in an `Env` record; everything written in the repository itself is
translated directly.
-/

namespace CRMTerm

/-- Characters of a Go string, modelled as a list. -/
abbrev Str := List Char

/-- Converts a Lean string literal into the character-list model. -/
def str (s : String) : Str := s.data

/-- ASCII lowering of one character, written as an explicit table; it agrees
with Go strings.ToLower on the ASCII text the UI compares. -/
def lowerChar (c : Char) : Char :=
  match c with
  | 'A' => 'a' | 'B' => 'b' | 'C' => 'c' | 'D' => 'd' | 'E' => 'e' | 'F' => 'f'
  | 'G' => 'g' | 'H' => 'h' | 'I' => 'i' | 'J' => 'j' | 'K' => 'k' | 'L' => 'l'
  | 'M' => 'm' | 'N' => 'n' | 'O' => 'o' | 'P' => 'p' | 'Q' => 'q' | 'R' => 'r'
  | 'S' => 's' | 'T' => 't' | 'U' => 'u' | 'V' => 'v' | 'W' => 'w' | 'X' => 'x'
  | 'Y' => 'y' | 'Z' => 'z'
  | c => c

/-- Model of Go strings.ToLower on ASCII text. -/
def strToLower (s : Str) : Str := s.map lowerChar

/-- Whitespace recognized by the model of Go strings.TrimSpace. -/
def isSpaceChar (c : Char) : Bool := c = ' ' || c = '\t' || c = '\n' || c = '\r'

/-- Model of Go strings.TrimSpace: drop whitespace from both ends. -/
def strTrim (s : Str) : Str :=
  ((s.dropWhile isSpaceChar).reverse.dropWhile isSpaceChar).reverse

/-- Model of Go strings.HasPrefix: `strStartsWith s p` holds when `s` begins with `p`. -/
def strStartsWith : Str → Str → Bool
  | _, [] => true
  | [], _ :: _ => false
  | a :: as, b :: bs => a == b && strStartsWith as bs

/-- Model of Go strings.EqualFold restricted to ASCII case folding. -/
def strEqFold (a b : Str) : Bool := strToLower a == strToLower b

/-- The normalization `strings.TrimSpace(strings.ToLower(input))` that both
command resolvers apply first. -/
def normalizeCommand (s : Str) : Str := strTrim (strToLower s)

/-- Model of Go strconv.Atoi on the inputs the UI feeds it: an optional sign
followed by decimal digits (the UI never reaches the int64 overflow path). -/
def digitsVal (s : Str) : Nat := s.foldl (fun n c => 10 * n + (c.toNat - 48)) 0

/-- Parses an optionally signed decimal integer, failing exactly when
strconv.Atoi reports a syntax error. -/
def atoi (s : Str) : Option Int :=
  match s with
  | [] => none
  | '+' :: rest =>
      if rest ≠ [] ∧ rest.all Char.isDigit then some (digitsVal rest) else none
  | '-' :: rest =>
      if rest ≠ [] ∧ rest.all Char.isDigit then some (-(digitsVal rest : Int)) else none
  | _ => if s.all Char.isDigit then some (digitsVal s) else none

/-- Menu option record from internal/ui/model.go: `synonyms` are exact
full-string matches, `keywords` are candidates for the fuzzy phase. -/
structure MenuOption where
  id : Str
  keywords : List Str
  synonyms : List Str
deriving DecidableEq, Repr

/-- The `mainMenuOptions` table from internal/ui/model.go. -/
def mainMenuOptions : List MenuOption :=
  [ { id := str "dashboard"
    , keywords := [str "dashboard"]
    , synonyms := [str "1", str "d", str "dash", str "dashboard"] }
  , { id := str "accounts"
    , keywords := [str "accounts"]
    , synonyms := [str "2", str "accounts", str "account", str "view", str "view accounts"] }
  , { id := str "add-account"
    , keywords := [str "add", str "new"]
    , synonyms := [str "3", str "add", str "add account", str "new account"] }
  , { id := str "create"
    , keywords := [str "create", str "note", str "event"]
    , synonyms := [str "4", str "create", str "note", str "event", str "create note", str "create event"] }
  , { id := str "settings"
    , keywords := [str "settings", str "help"]
    , synonyms := [str "5", str "settings", str "help", str "settings & help"] }
  , { id := str "quit"
    , keywords := [str "quit", str "exit"]
    , synonyms := [str "6", str "quit", str "exit", str "exit.", str "q"] } ]

/-- The `accountDetailOptions` table from internal/ui/model.go. -/
def accountDetailOptions : List MenuOption :=
  [ { id := str "activity"
    , keywords := [str "activity", str "timeline"]
    , synonyms := [str "1", str "activity", str "view", str "timeline"] }
  , { id := str "add-note"
    , keywords := [str "note"]
    , synonyms := [str "2", str "note", str "add note", str "create note"] }
  , { id := str "add-event"
    , keywords := [str "event"]
    , synonyms := [str "3", str "event", str "add event", str "create event"] }
  , { id := str "edit-account"
    , keywords := [str "edit", str "update"]
    , synonyms := [str "4", str "edit", str "update"] }
  , { id := str "back"
    , keywords := [str "back", str "close"]
    , synonyms := [str "5", str "back", str "exit", str "exit.", str "/"] } ]

/-- Exact phase of the command resolver: the first option one of whose
synonyms equals the normalized input (the Go double loop with early return). -/
def findSynonym (options : List MenuOption) (value : Str) : Option MenuOption :=
  options.find? (fun o => o.synonyms.contains value)

/-- Fuzzy phase candidates: ids of options having a keyword that starts with
the normalized input, deduplicated the way the Go `map[string]struct{}` set
deduplicates them (one entry per option id). -/
def stemCandidates (options : List MenuOption) (value : Str) : List Str :=
  ((options.filter (fun o => o.keywords.any (fun k => strStartsWith k value))).map
    (fun o => o.id)).eraseDups

/-- The shared command-resolution algorithm of `resolveMainMenuSelection` and
`resolveAccountDetailAction` (the two Go functions are textually identical up
to the table). -/
def resolveMenu (options : List MenuOption) (input : Str) : Option Str :=
  let value := normalizeCommand input
  if value = [] then none
  else
    match findSynonym options value with
    | some o => some o.id
    | none =>
      match stemCandidates options value with
      | [i] => some i
      | _ => none

/-- Go `resolveMainMenuSelection` (ui/model.go:516). -/
def resolveMainMenuSelection (input : Str) : Option Str :=
  resolveMenu mainMenuOptions input

/-- Go `resolveAccountDetailAction` (ui/model.go:600). -/
def resolveAccountDetailAction (input : Str) : Option Str :=
  resolveMenu accountDetailOptions input

/-- Account record from internal/storage/storage.go. -/
structure Account where
  id : Int
  name : Str
  phone : Str
  address : Str
  email : Str
  decisionMaker : Str
  creator : Str
  createdAt : Int
deriving DecidableEq, Repr

/-- The zero value of the Go Account struct. -/
def zeroAccount : Account :=
  { id := 0, name := [], phone := [], address := [], email := []
  , decisionMaker := [], creator := [], createdAt := 0 }

/-- Exact phase of the account-selection resolver: scan the filtered list and
then the full list for a case-insensitive (EqualFold) name match, first hit
wins (ui/model.go:576). -/
def accountExactScan (filtered accounts : List Account) (query : Str) : Option Account :=
  (filtered ++ accounts).find? (fun a => strEqFold a.name query)

/-- Fuzzy phase of the account-selection resolver (ui/model.go:583): the match
count accumulates across the filtered and full lists, with a uniqueness check
after each list; `match` holds the single hit exactly when the count is one. -/
def accountStemScan (filtered accounts : List Account) (queryLower : Str) : Option Account :=
  let m1 := filtered.filter (fun a => strStartsWith (strToLower a.name) queryLower)
  if m1.length = 1 then m1.head?
  else
    let m2 := m1 ++ accounts.filter (fun a => strStartsWith (strToLower a.name) queryLower)
    if m2.length = 1 then m2.head? else none

/-- Go `(m *model).resolveAccountSelection` (ui/model.go:547), with the model
fields `m.accounts` and `m.filteredAccounts` passed explicitly. -/
def resolveAccountSelection (accounts filtered : List Account) (input : Str) : Option Account :=
  if accounts.isEmpty && filtered.isEmpty then none
  else
    let trimmed := strTrim input
    if trimmed = [] then
      if filtered.length = 1 then filtered.head? else none
    else
      let lower := strToLower trimmed
      let query :=
        if strStartsWith lower (str "open ") then strTrim (trimmed.drop 5)
        else if strStartsWith lower (str "view ") then strTrim (trimmed.drop 5)
        else if strStartsWith lower (str "select ") then strTrim (trimmed.drop 7)
        else if strStartsWith lower (str "#") then strTrim (trimmed.drop 1)
        else trimmed
      let fallback :=
        match accountExactScan filtered accounts query with
        | some a => some a
        | none => accountStemScan filtered accounts (strToLower query)
      match atoi query with
      | some idx =>
          if 0 < idx ∧ idx ≤ (filtered.length : Int) then filtered.get? (idx.toNat - 1)
          else fallback
      | none => fallback

/-- Storage error distinctions surfaced by internal/storage/storage.go:
`ErrAccountExists` versus any other error (carrying its message). -/
inductive StoreError
  | accountExists
  | otherError (msg : Str)
deriving DecidableEq, Repr

/-- The message `err.Error()` of a storage error, as the UI displays it. -/
def storeErrorMessage : StoreError → Str
  | .accountExists => str "account already exists"
  | .otherError msg => msg

/-- Note record from internal/storage/storage.go (`sql.NullInt64` account link
modelled as `Option Int`). -/
structure NoteRec where
  id : Int
  content : Str
  accountId : Option Int
  creator : Str
  createdAt : Int
deriving DecidableEq, Repr

/-- Event record from internal/storage/storage.go; timestamps are nanoseconds
since the epoch (`time.Time` instants compare exactly this way). -/
structure Event where
  id : Int
  title : Str
  details : Str
  eventTime : Int
  accountId : Option Int
  creator : Str
  createdAt : Int
  accountName : Option Str
deriving DecidableEq, Repr

/-- Activity row from internal/storage/storage.go. -/
structure Activity where
  id : Int
  type : Str
  title : Str
  details : Str
  createdAt : Int
deriving DecidableEq, Repr

/-- In-memory model of the SQLite store: the three tables plus a rowid
counter standing for AUTOINCREMENT. -/
structure Store where
  accounts : List Account
  notes : List NoteRec
  events : List Event
  nextId : Int
deriving DecidableEq, Repr

/-- Lexicographic byte order on strings, the order SQLite uses for ORDER BY
after the NOCASE lowering. -/
def lexLe : Str → Str → Bool
  | [], _ => true
  | _ :: _, [] => false
  | a :: as, b :: bs => a.toNat < b.toNat || (a == b && lexLe as bs)

/-- ORDER BY name COLLATE NOCASE comparison. -/
def nameNoCaseLe (a b : Account) : Prop :=
  lexLe (strToLower a.name) (strToLower b.name) = true

instance : DecidableRel nameNoCaseLe := fun a b =>
  inferInstanceAs (Decidable (lexLe (strToLower a.name) (strToLower b.name) = true))

/-- Ascending event-time comparison used when ordering event lists. -/
def eventTimeLe (a b : Event) : Prop := a.eventTime ≤ b.eventTime

instance : DecidableRel eventTimeLe := fun a b =>
  inferInstanceAs (Decidable (a.eventTime ≤ b.eventTime))

instance : IsTotal Event eventTimeLe := ⟨fun a b => Int.le_total a.eventTime b.eventTime⟩

instance : IsTrans Event eventTimeLe := ⟨fun _ _ _ h1 h2 => Int.le_trans h1 h2⟩

/-- Descending event-time comparison used for the past bucket. -/
def eventTimeGe (a b : Event) : Prop := b.eventTime ≤ a.eventTime

instance : DecidableRel eventTimeGe := fun a b =>
  inferInstanceAs (Decidable (b.eventTime ≤ a.eventTime))

instance : IsTotal Event eventTimeGe := ⟨fun a b => Int.le_total b.eventTime a.eventTime⟩

instance : IsTrans Event eventTimeGe := ⟨fun _ _ _ h1 h2 => Int.le_trans h2 h1⟩

/-- ORDER BY created_at DESC comparison on activity rows. -/
def createdDesc (a b : Activity) : Prop := b.createdAt ≤ a.createdAt

instance : DecidableRel createdDesc := fun a b =>
  inferInstanceAs (Decidable (b.createdAt ≤ a.createdAt))

/-- Go `Store.ListAccounts`: all accounts ordered case-insensitively by name
(`ORDER BY name COLLATE NOCASE`). -/
def Store.listAccounts (st : Store) : List Account :=
  List.insertionSort nameNoCaseLe st.accounts

/-- Substring test modelling `lower(name) LIKE '%term%'`. -/
def strContainsSub : Str → Str → Bool
  | s, sub =>
    match s with
    | [] => sub.isEmpty
    | _ :: rest => strStartsWith s sub || strContainsSub rest sub

/-- Go `Store.SearchAccounts`: case-insensitive substring search on names,
falling back to the full listing on a blank term. -/
def Store.searchAccounts (st : Store) (term : Str) : List Account :=
  let t := strTrim term
  if t = [] then st.listAccounts
  else
    List.insertionSort nameNoCaseLe
      (st.accounts.filter (fun a => strContainsSub (strToLower a.name) (strToLower t)))

/-- Go `Store.CreateAccount`: rejects blank names, signals `ErrAccountExists`
on a UNIQUE violation (SQLite compares the stored name byte-wise), otherwise
inserts the row (text fields stored through nullString, i.e. trimmed) and
reports the fresh rowid. -/
def Store.createAccount (st : Store) (now : Int) (a : Account) :
    Except StoreError (Store × Int) :=
  if strTrim a.name = [] then .error (.otherError (str "account name required"))
  else
    let a := if a.createdAt = 0 then { a with createdAt := now } else a
    if st.accounts.any (fun b => b.name == strTrim a.name) then .error .accountExists
    else
      let stored : Account :=
        { a with
          id := st.nextId
          name := strTrim a.name
          phone := strTrim a.phone
          address := strTrim a.address
          email := strTrim a.email
          decisionMaker := strTrim a.decisionMaker }
      .ok ({ st with accounts := st.accounts ++ [stored], nextId := st.nextId + 1 }, st.nextId)

/-- Go `Store.CreateNote`: rejects blank content, otherwise inserts. -/
def Store.createNote (st : Store) (now : Int) (n : NoteRec) : Except StoreError Store :=
  if strTrim n.content = [] then .error (.otherError (str "note content required"))
  else
    let n := if n.createdAt = 0 then { n with createdAt := now } else n
    .ok { st with notes := st.notes ++ [{ n with id := st.nextId }], nextId := st.nextId + 1 }

/-- Go `Store.CreateEvent`: rejects blank titles, defaults the event time and
creation time to now, otherwise inserts. -/
def Store.createEvent (st : Store) (now : Int) (e : Event) : Except StoreError Store :=
  if strTrim e.title = [] then .error (.otherError (str "event title required"))
  else
    let e := if e.eventTime = 0 then { e with eventTime := now } else e
    let e := if e.createdAt = 0 then { e with createdAt := now } else e
    .ok { st with events := st.events ++ [{ e with id := st.nextId }], nextId := st.nextId + 1 }

/-- Go `Store.AccountByName`: exact case-insensitive lookup
(`WHERE lower(name) = lower(?)` on the trimmed argument). -/
def Store.accountByName (st : Store) (name : Str) : Option Account :=
  st.accounts.find? (fun a => strToLower a.name == strToLower (strTrim name))

/-- Go `Store.AccountByID`. -/
def Store.accountByID (st : Store) (i : Int) : Option Account :=
  st.accounts.find? (fun a => a.id == i)

/-- Go `Store.UpdateAccount`: rejects blank names, signals `ErrAccountExists`
when another row already holds the (trimmed) name, otherwise rewrites the row. -/
def Store.updateAccount (st : Store) (a : Account) : Except StoreError Store :=
  if strTrim a.name = [] then .error (.otherError (str "account name required"))
  else if st.accounts.any (fun b => b.id != a.id && b.name == strTrim a.name) then
    .error .accountExists
  else
    .ok { st with accounts := st.accounts.map (fun b =>
      if b.id == a.id then
        { b with
          name := strTrim a.name
          phone := strTrim a.phone
          address := strTrim a.address
          email := strTrim a.email
          decisionMaker := strTrim a.decisionMaker }
      else b) }

/-- Go `Store.ListEvents`: events ascending by event time, left-joined with
the owning account name. -/
def Store.listEvents (st : Store) : List Event :=
  List.insertionSort eventTimeLe (st.events.map (fun e =>
    { e with accountName :=
        match e.accountId with
        | none => none
        | some i => (st.accounts.find? (fun a => a.id == i)).map (fun a => a.name) }))

/-- Rows of the activity UNION in `Store.ListActivities`. -/
def Store.activityRows (st : Store) : List Activity :=
  st.accounts.map (fun a =>
    { id := a.id, type := str "account", title := a.name, details := a.phone
    , createdAt := a.createdAt })
  ++ st.notes.map (fun n =>
    { id := n.id, type := str "note", title := n.content.take 80, details := []
    , createdAt := n.createdAt })
  ++ st.events.map (fun e =>
    { id := e.id, type := str "event", title := e.title, details := e.details.take 80
    , createdAt := e.createdAt })

/-- Go `Store.ListActivities`: combined stream, newest first, limited. -/
def Store.listActivities (st : Store) (limit : Int) : List Activity :=
  let limit := if limit ≤ 0 then 20 else limit
  (List.insertionSort createdDesc st.activityRows).take limit.toNat

/-- Go `Store.ListAccountActivity`: the same stream scoped to one account. -/
def Store.listAccountActivity (st : Store) (accountID : Int) (limit : Int) : List Activity :=
  let limit := if limit ≤ 0 then 20 else limit
  let rows :=
    (st.accounts.filter (fun a => a.id == accountID)).map (fun a =>
      { id := a.id, type := str "account", title := a.name, details := a.phone
      , createdAt := a.createdAt })
    ++ (st.notes.filter (fun n => n.accountId == some accountID)).map (fun n =>
      { id := n.id, type := str "note", title := n.content.take 80, details := []
      , createdAt := n.createdAt })
    ++ (st.events.filter (fun e => e.accountId == some accountID)).map (fun e =>
      { id := e.id, type := str "event", title := e.title, details := e.details.take 80
      , createdAt := e.createdAt })
  (List.insertionSort createdDesc rows).take limit.toNat

/-- Twenty-four hours in nanoseconds, the `startOfDay.Add(24 * time.Hour)`
offset of `SplitEvents`. -/
def dayNanos : Int := 86400000000000

/-- Midnight of the calendar day containing `now` in a fixed-offset zone
(`time.Date(now.Year(), now.Month(), now.Day(), 0, 0, 0, 0, loc)`): subtract
the wall-clock remainder of the day. -/
def startOfDayAt (now tzOffset : Int) : Int := now - (now + tzOffset) % dayNanos

/-- Go `SplitEvents` (storage.go:612): partition events against the day
window, then order today/upcoming ascending and past descending by event
time.  `sort.Slice` is an unstable sort, so any comparison-sorted permutation
is a faithful model; insertion sort is used here. -/
def splitEvents (events : List Event) (now tzOffset : Int) :
    List Event × List Event × List Event :=
  let startOfDay := startOfDayAt now tzOffset
  let endOfDay := startOfDay + dayNanos
  let isToday := fun (e : Event) =>
    decide (startOfDay ≤ e.eventTime) && decide (e.eventTime < endOfDay)
  let today := events.filter isToday
  let upcoming := events.filter (fun e => !isToday e && decide (now < e.eventTime))
  let past := events.filter (fun e => !isToday e && !decide (now < e.eventTime))
  (List.insertionSort eventTimeLe today,
   List.insertionSort eventTimeLe upcoming,
   List.insertionSort eventTimeGe past)

/-- The `viewState` enum of internal/ui/model.go (the two settings-edit
states exist in the enum but are never assigned to `m.state`; editing is
tracked by `settingsMode`). -/
inductive ViewState
  | mainMenu
  | dashboard
  | accounts
  | accountDetail
  | createAccount
  | createChoice
  | createNote
  | createEvent
  | settings
  | settingsEditName
  | settingsEditTimezone
deriving DecidableEq, Repr

/-- The `dashboardView` enum. -/
inductive DashboardView
  | events
  | activity
deriving DecidableEq, Repr

/-- The `settingsMode` enum. -/
inductive SettingsMode
  | viewing
  | editingName
  | editingTimezone
deriving DecidableEq, Repr

/-- The `noteStage` enum. -/
inductive NoteStage
  | content
  | associateAsk
  | associateChoose
deriving DecidableEq, Repr

/-- The `eventStage` enum. -/
inductive EventStage
  | title
  | details
  | schedule
  | associateAsk
  | associateChoose
deriving DecidableEq, Repr

/-- The `accountDetailView` enum. -/
inductive AccountDetailView
  | summary
  | activity
deriving DecidableEq, Repr

/-- A `formField` of the account form. -/
structure FormField where
  label : Str
  value : Str
  required : Bool
deriving DecidableEq, Repr

/-- The `accountForm` struct; a `textinput.Model` is abstracted to its value
and placeholder (focus and character limits do not affect the transitions
modelled here, and each placeholder in the program pairs with a unique
character limit, so `ensureMenuInput`'s limit comparison is subsumed by the
placeholder comparison). -/
structure AccountForm where
  index : Nat
  fields : List FormField
  inputValue : Str
  inputPlaceholder : Str
  err : Str
  editing : Bool
  original : Account
deriving DecidableEq, Repr

/-- The `noteWizard` struct (three text inputs abstracted to their values). -/
structure NoteWizard where
  stage : NoteStage
  contentValue : Str
  associateValue : Str
  accountValue : Str
  associate : Bool
  err : Str
  presetAccount : Option Account
deriving DecidableEq, Repr

/-- The `eventWizard` struct. -/
structure EventWizard where
  stage : EventStage
  titleValue : Str
  detailsValue : Str
  scheduleValue : Str
  associateValue : Str
  accountValue : Str
  associate : Bool
  err : Str
  presetAccount : Option Account
deriving DecidableEq, Repr

/-- The `settingsModel` struct. -/
structure SettingsModel where
  mode : SettingsMode
  inputValue : Str
  err : Str
deriving DecidableEq, Repr

/-- The `accountDetailModel` struct. -/
structure AccountDetailModel where
  account : Account
  activity : List Activity
  view : AccountDetailView
  err : Str
deriving DecidableEq, Repr

/-- The session `model` struct of internal/ui/model.go.  The configuration
store is inlined as `cfgName`/`cfgTimezone`; rendering-only fields (width,
height, theme) are omitted because no transition reads them. -/
structure Model where
  state : ViewState
  prevStates : List ViewState
  store : Store
  cfgName : Str
  cfgTimezone : Str
  infoMessage : Str
  errMessage : Str
  showSplash : Bool
  menuValue : Str
  menuPlaceholder : Str
  accountFilterValue : Str
  accounts : List Account
  filteredAccounts : List Account
  accountForm : AccountForm
  noteWizard : NoteWizard
  eventWizard : EventWizard
  dashboardView : DashboardView
  dashboardEvents : List Event
  dashboardActivity : List Activity
  settings : SettingsModel
  accountDetail : AccountDetailModel
deriving DecidableEq, Repr

/-- External collaborators of one processing turn: the clock, the Go time
parser for the `YYYY-MM-DD HH:MM` layout (returning the parsed instant), the
timezone database check behind `time.LoadLocation`, configuration
persistence, and the CSV import (which touches the filesystem).  Everything
else in the transition function is translated from the repository. -/
structure Env where
  now : Int
  parseSchedule : Str → Option Int
  validTimezone : Str → Bool
  saveConfigOk : Bool
  saveConfigErr : Str
  importAccounts : Str → Store → Store × Str × Str

/-- One input event: editing the focused text input to hold `s`, pressing
enter, or pressing escape (Ctrl+C quits unconditionally and is not a state
transition). -/
inductive Msg
  | inputText (s : Str)
  | enter
  | esc
deriving DecidableEq, Repr

/-- Go `isExitCommand` (ui/model.go:740). -/
def isExitCommand (value : Str) : Bool :=
  let v := normalizeCommand value
  v == str "exit." || v == str "quit"

/-- Go `isBackCommand` (ui/model.go:745). -/
def isBackCommand (value : Str) : Bool :=
  let v := normalizeCommand value
  v == str "/" || v == str "back"

/-- The five fields of `newAccountForm`, empty-valued. -/
def accountFormFieldDefs : List FormField :=
  [ { label := str "Account name", value := [], required := true }
  , { label := str "Phone", value := [], required := false }
  , { label := str "Address", value := [], required := false }
  , { label := str "Email", value := [], required := false }
  , { label := str "Decision maker", value := [], required := false } ]

/-- Go `newAccountForm`: a fresh form, optionally pre-populated from an
existing account for editing. -/
def newAccountForm (existing : Option Account) : AccountForm :=
  match existing with
  | none =>
    { index := 0
      fields := accountFormFieldDefs
      inputValue := []
      inputPlaceholder := str "Account name"
      err := []
      editing := false
      original := zeroAccount }
  | some a =>
    { index := 0
      fields :=
        [ { label := str "Account name", value := a.name, required := true }
        , { label := str "Phone", value := a.phone, required := false }
        , { label := str "Address", value := a.address, required := false }
        , { label := str "Email", value := a.email, required := false }
        , { label := str "Decision maker", value := a.decisionMaker, required := false } ]
      inputValue := a.name
      inputPlaceholder := str "Account name"
      err := []
      editing := true
      original := a }

/-- Go `newNoteWizard`. -/
def newNoteWizard (account : Option Account) : NoteWizard :=
  { stage := .content
    contentValue := []
    associateValue := []
    accountValue := []
    associate := false
    err := []
    presetAccount := account }

/-- Go `newEventWizard`. -/
def newEventWizard (account : Option Account) : EventWizard :=
  { stage := .title
    titleValue := []
    detailsValue := []
    scheduleValue := []
    associateValue := []
    accountValue := []
    associate := false
    err := []
    presetAccount := account }

/-- Go `(m *model).pushState`. -/
def Model.pushState (m : Model) (next : ViewState) : Model :=
  { m with prevStates := m.prevStates ++ [m.state], state := next }

/-- Go `(m *model).popState`: activate the top of the stack, or the main
menu when the stack is empty. -/
def Model.popState (m : Model) : Model :=
  if m.prevStates.isEmpty then { m with state := .mainMenu }
  else
    { m with
      state := m.prevStates.getLastD .mainMenu
      prevStates := m.prevStates.dropLast }

/-- Go `(m *model).resetMessages`. -/
def Model.resetMessages (m : Model) : Model :=
  { m with errMessage := [], infoMessage := [] }

/-- Go `(m *model).setMenuInput`: a fresh menu input with the given
placeholder. -/
def Model.setMenuInput (m : Model) (placeholder : Str) : Model :=
  { m with menuValue := [], menuPlaceholder := placeholder }

/-- Go `(m *model).ensureMenuInput`: keep the input if its placeholder
already matches, otherwise reset it (discarding the typed value). -/
def Model.ensureMenuInput (m : Model) (placeholder : Str) : Model :=
  if strTrim m.menuPlaceholder == placeholder then m else m.setMenuInput placeholder

/-- Go `(m *model).refreshAccounts`: reload the full list and recompute the
filtered list from the current filter text. -/
def Model.refreshAccounts (m : Model) : Model :=
  let accounts := m.store.listAccounts
  let filter := strTrim m.accountFilterValue
  if filter = [] then { m with accounts := accounts, filteredAccounts := accounts }
  else { m with accounts := accounts, filteredAccounts := m.store.searchAccounts filter }

/-- Go `(m *model).refreshDashboard` (its time argument is unused in the
body). -/
def Model.refreshDashboard (m : Model) : Model :=
  { m with
    dashboardEvents := m.store.listEvents
    dashboardActivity := m.store.listActivities 50 }

/-- Go `(m *model).refreshAccountDetailAccount`. -/
def Model.refreshAccountDetailAccount (m : Model) : Model :=
  if m.accountDetail.account.id = 0 then m
  else
    match m.store.accountByID m.accountDetail.account.id with
    | none =>
      { m with accountDetail :=
          { m.accountDetail with err := str "load account: record not found" } }
    | some a => { m with accountDetail := { m.accountDetail with account := a } }

/-- Go `(m *model).loadAccountActivity`. -/
def Model.loadAccountActivity (m : Model) : Model :=
  if m.accountDetail.account.id = 0 then
    { m with accountDetail := { m.accountDetail with activity := [] } }
  else
    { m with accountDetail :=
        { m.accountDetail with
          err := []
          activity := m.store.listAccountActivity m.accountDetail.account.id 50 } }

/-- Go `(m *model).openAccountDetail`. -/
def Model.openAccountDetail (m : Model) (account : Account) : Model :=
  let m :=
    { m with accountDetail :=
        { account := account, view := .summary, activity := [], err := [] } }
  let m := m.refreshAccountDetailAccount
  let m := m.pushState .accountDetail
  m.setMenuInput (str "1=Activity  2=Add note  3=Add event  4=Edit  5=Back")

/-- Go `(m *model).handleAccountImport`: the blank-path check is the
program's, the rest of the import runs in the filesystem/storage oracle. -/
def Model.handleAccountImport (env : Env) (m : Model) (path : Str) : Model :=
  let m := { m with infoMessage := [] }
  if strTrim path = [] then { m with errMessage := str "Provide a CSV path" }
  else
    let res := env.importAccounts (strTrim path) m.store
    { m with store := res.1, infoMessage := res.2.1, errMessage := res.2.2 }

/-- Go `buildAccount`: copy the form fields onto the base account. -/
def buildAccount (fields : List FormField) (base : Account) : Account :=
  let a := base
  let a := match fields.get? 0 with | some f => { a with name := f.value } | none => a
  let a := match fields.get? 1 with | some f => { a with phone := f.value } | none => a
  let a := match fields.get? 2 with | some f => { a with address := f.value } | none => a
  let a := match fields.get? 3 with | some f => { a with email := f.value } | none => a
  match fields.get? 4 with | some f => { a with decisionMaker := f.value } | none => a

/-- Field access `m.accountForm.fields[i]`; the Go code only indexes in
bounds, the default is never read on reachable states. -/
def fieldAt (fields : List FormField) (i : Nat) : FormField :=
  (fields.get? i).getD { label := [], value := [], required := false }

/-- Go `(m *model).saveNote`: build the note from the wizard buffers and
insert it. -/
def Model.saveNote (env : Env) (m : Model) (accountID : Option Int) :
    Except StoreError Model :=
  let content := strTrim m.noteWizard.contentValue
  let note : NoteRec :=
    { id := 0
      content := content
      accountId := accountID
      creator := m.cfgName
      createdAt := env.now }
  match m.store.createNote env.now note with
  | .error e => .error e
  | .ok st => .ok { m with store := st }

/-- Go `(m *model).completeNoteSave`. -/
def Model.completeNoteSave (m : Model) (message : Str) : Model :=
  let m := { m with noteWizard := newNoteWizard none, infoMessage := message }
  let m := m.popState
  let m :=
    if m.state = .accountDetail then m.refreshAccountDetailAccount.loadAccountActivity
    else if m.state = .mainMenu then m.setMenuInput (str "Choose an option")
    else m
  m.refreshDashboard

/-- Go `(m *model).saveEvent`: parse the schedule (blank means now), build
the event and insert it. -/
def Model.saveEvent (env : Env) (m : Model) (accountID : Option Int) :
    Except StoreError Model :=
  let title := strTrim m.eventWizard.titleValue
  let details := strTrim m.eventWizard.detailsValue
  let scheduleStr := strTrim m.eventWizard.scheduleValue
  let eventTime? : Option Int :=
    if scheduleStr = [] then some env.now else env.parseSchedule scheduleStr
  match eventTime? with
  | none => .error (.otherError (str "invalid schedule format"))
  | some t =>
    let evt : Event :=
      { id := 0
        title := title
        details := details
        eventTime := t
        accountId := accountID
        creator := m.cfgName
        createdAt := env.now
        accountName := none }
    match m.store.createEvent env.now evt with
    | .error e => .error e
    | .ok st => .ok { m with store := st }

/-- Go `(m *model).completeEventSave`. -/
def Model.completeEventSave (m : Model) (message : Str) : Model :=
  let m := { m with eventWizard := newEventWizard none, infoMessage := message }
  let m := m.popState
  let m :=
    if m.state = .accountDetail then m.refreshAccountDetailAccount.loadAccountActivity
    else if m.state = .mainMenu then m.setMenuInput (str "Choose an option")
    else m
  m.refreshDashboard

/-- Go `(m *model).updateMainMenu`; the boolean result records whether
`tea.Quit` was issued. -/
def updateMainMenu (env : Env) (m : Model) (msg : Msg) : Model × Bool :=
  let m := m.ensureMenuInput (str "Choose an option")
  match msg with
  | .inputText s => ({ m with menuValue := s }, false)
  | .esc => (m, false)
  | .enter =>
    let choice := normalizeCommand m.menuValue
    let m := { m with menuValue := [], showSplash := false }
    match resolveMainMenuSelection choice with
    | none =>
      if choice = [] ∨ choice = str "0" then (m, false)
      else ({ m with errMessage := str "Unknown choice" }, false)
    | some action =>
      if action = str "dashboard" then
        let m := m.resetMessages
        let m := m.pushState .dashboard
        let m := m.refreshDashboard
        (m.setMenuInput (str "Command (t=toggle, r=refresh, /, exit.)"), false)
      else if action = str "accounts" then
        let m := m.resetMessages
        let m := m.pushState .accounts
        (m.refreshAccounts, false)
      else if action = str "add-account" then
        let m := m.resetMessages
        let m := { m with accountForm := newAccountForm none }
        (m.pushState .createAccount, false)
      else if action = str "create" then
        let m := m.resetMessages
        let m := m.pushState .createChoice
        (m.setMenuInput (str "1=Note  2=Event  3=Back"), false)
      else if action = str "settings" then
        let m := m.resetMessages
        let m := { m with settings := { mode := .viewing, inputValue := [], err := [] } }
        let m := m.pushState .settings
        (m.setMenuInput (str "1=Name  2=Timezone  3=Back"), false)
      else if action = str "quit" then (m, true)
      else (m, false)

/-- The trailing filter recomputation of `updateAccounts` (runs on every
message that does not return early). -/
def accountsApplyFilter (m : Model) : Model :=
  let filter := strTrim m.accountFilterValue
  if filter = [] then { m with filteredAccounts := m.accounts }
  else { m with filteredAccounts := m.store.searchAccounts filter }

/-- Go `(m *model).updateAccounts`. -/
def updateAccounts (env : Env) (m : Model) (msg : Msg) : Model :=
  match msg with
  | .inputText s => accountsApplyFilter { m with accountFilterValue := s }
  | .esc =>
    let m := m.popState
    if m.state = .mainMenu then m.setMenuInput (str "Choose an option") else m
  | .enter =>
    let value := strTrim m.accountFilterValue
    if isExitCommand value then
      let m := { m with accountFilterValue := [], prevStates := [], state := .mainMenu }
      m.setMenuInput (str "Choose an option")
    else if isBackCommand value then
      let m := { m with accountFilterValue := [] }
      let m := m.popState
      if m.state = .mainMenu then m.setMenuInput (str "Choose an option") else m
    else if strStartsWith (strToLower value) (str "import ") then
      let path := strTrim (value.drop 7)
      let m := m.handleAccountImport env path
      let m := { m with accountFilterValue := [] }
      m.refreshAccounts
    else
      match resolveAccountSelection m.accounts m.filteredAccounts value with
      | some account =>
        let m := { m with accountFilterValue := [] }
        m.openAccountDetail account
      | none => accountsApplyFilter m.refreshAccounts

/-- Go `(m *model).updateAccountDetail`. -/
def updateAccountDetail (env : Env) (m : Model) (msg : Msg) : Model :=
  let m := m.ensureMenuInput (str "1=Activity  2=Add note  3=Add event  4=Edit  5=Back")
  match msg with
  | .inputText s => { m with menuValue := s }
  | .esc =>
    let m := m.popState
    if m.state = .mainMenu then m.setMenuInput (str "Choose an option") else m
  | .enter =>
    let choice := normalizeCommand m.menuValue
    let m := { m with menuValue := [] }
    match resolveAccountDetailAction choice with
    | none =>
      if choice = [] then m
      else { m with accountDetail := { m.accountDetail with err := str "Unknown choice" } }
    | some action =>
      let m := { m with accountDetail := { m.accountDetail with err := [] } }
      if action = str "activity" then
        let m := { m with accountDetail := { m.accountDetail with view := .activity } }
        m.loadAccountActivity
      else if action = str "add-note" then
        let m := { m with accountDetail := { m.accountDetail with view := .summary } }
        let m := { m with noteWizard := newNoteWizard (some m.accountDetail.account) }
        m.pushState .createNote
      else if action = str "add-event" then
        let m := { m with accountDetail := { m.accountDetail with view := .summary } }
        let m := { m with eventWizard := newEventWizard (some m.accountDetail.account) }
        m.pushState .createEvent
      else if action = str "edit-account" then
        let m := { m with accountDetail := { m.accountDetail with view := .summary } }
        let m := { m with accountForm := newAccountForm (some m.accountDetail.account) }
        m.pushState .createAccount
      else
        let m := m.popState
        if m.state = .mainMenu then m.setMenuInput (str "Choose an option") else m

/-- Discarding the form and popping, shared by the escape key and the back
command on the first field of `updateAccountForm`. -/
def accountFormCancel (m : Model) : Model :=
  let m :=
    if m.accountForm.editing then
      { m with accountForm := newAccountForm (some m.accountForm.original) }
    else { m with accountForm := newAccountForm none }
  let m := m.popState
  if m.state = .mainMenu then m.setMenuInput (str "Choose an option")
  else if m.state = .accountDetail then
    m.setMenuInput (str "1=Activity  2=Add note  3=Add event  4=Edit  5=Back")
  else m

/-- The shared tail of a successful account save in `updateAccountForm`. -/
def accountFormFinish (m : Model) (account : Account) : Model :=
  let m :=
    if m.accountForm.editing then
      ({ m with accountDetail :=
          { m.accountDetail with account := account } }).refreshAccountDetailAccount
    else m
  let m := { m with accountForm := newAccountForm none }
  let m := m.popState
  let m :=
    if m.state = .mainMenu then m.setMenuInput (str "Choose an option")
    else if m.state = .accountDetail then
      m.setMenuInput (str "1=Activity  2=Add note  3=Add event  4=Edit  5=Back")
    else m
  let m := m.refreshAccounts
  if m.state = .accountDetail then m.loadAccountActivity else m

/-- Go `(m *model).updateAccountForm`. -/
def updateAccountForm (env : Env) (m : Model) (msg : Msg) : Model :=
  match msg with
  | .inputText s => { m with accountForm := { m.accountForm with inputValue := s } }
  | .esc => accountFormCancel m
  | .enter =>
    let value := strTrim m.accountForm.inputValue
    if isExitCommand value then
      let m := { m with accountForm := newAccountForm none, prevStates := [], state := .mainMenu }
      m.setMenuInput (str "Choose an option")
    else if isBackCommand value then
      if m.accountForm.index = 0 then accountFormCancel m
      else
        let idx := m.accountForm.index - 1
        let prev := fieldAt m.accountForm.fields idx
        { m with accountForm :=
            { m.accountForm with
              index := idx
              inputPlaceholder := prev.label
              inputValue := prev.value
              err := [] } }
    else if (fieldAt m.accountForm.fields m.accountForm.index).required ∧ value = [] then
      { m with accountForm := { m.accountForm with err := str "This field is required" } }
    else
      let fields := m.accountForm.fields.set m.accountForm.index
        { fieldAt m.accountForm.fields m.accountForm.index with value := value }
      let m := { m with accountForm :=
          { m.accountForm with fields := fields, inputValue := [], err := [] } }
      if m.accountForm.fields.length - 1 ≤ m.accountForm.index then
        let base := if m.accountForm.editing then m.accountForm.original else zeroAccount
        let account := buildAccount m.accountForm.fields base
        if m.accountForm.editing then
          match m.store.updateAccount account with
          | .error .accountExists =>
            { m with accountForm :=
                { m.accountForm with
                  err := str "An account with that name already exists"
                  index := 0
                  inputValue := account.name
                  inputPlaceholder := (fieldAt m.accountForm.fields 0).label } }
          | .error e =>
            { m with accountForm := { m.accountForm with err := storeErrorMessage e } }
          | .ok st =>
            let m := { m with
              store := st
              infoMessage := str "Account \x27" ++ account.name ++ str "\x27 updated" }
            accountFormFinish m account
        else
          let account := { account with creator := m.cfgName, createdAt := env.now }
          match m.store.createAccount env.now account with
          | .error .accountExists =>
            { m with accountForm :=
                { m.accountForm with
                  err := str "An account with that name already exists"
                  index := 0
                  inputValue := []
                  inputPlaceholder := (fieldAt m.accountForm.fields 0).label } }
          | .error e =>
            { m with accountForm := { m.accountForm with err := storeErrorMessage e } }
          | .ok (st, id) =>
            let account := { account with id := id }
            let m := { m with
              store := st
              infoMessage := str "Account \x27" ++ account.name ++ str "\x27 created" }
            accountFormFinish m account
      else
        let idx := m.accountForm.index + 1
        let next := fieldAt m.accountForm.fields idx
        { m with accountForm :=
            { m.accountForm with
              index := idx
              inputPlaceholder := next.label
              inputValue := next.value } }

/-- Go `(m *model).updateCreateChoice`. -/
def updateCreateChoice (env : Env) (m : Model) (msg : Msg) : Model :=
  let m := m.ensureMenuInput (str "1=Note  2=Event  3=Back")
  match msg with
  | .inputText s => { m with menuValue := s }
  | .esc => m
  | .enter =>
    let input := normalizeCommand m.menuValue
    let m := { m with menuValue := [] }
    if input = str "1" ∨ input = str "note" ∨ input = str "n" then
      { m with noteWizard := newNoteWizard none, state := .createNote }
    else if input = str "2" ∨ input = str "event" ∨ input = str "e" then
      { m with eventWizard := newEventWizard none, state := .createEvent }
    else if input = str "3" ∨ input = str "back" ∨ input = str "/" then
      let m := m.popState
      if m.state = .mainMenu then m.setMenuInput (str "Choose an option") else m
    else if input = str "exit." ∨ input = str "exit" ∨ input = str "quit" then
      let m := { m with prevStates := [], state := .mainMenu }
      m.setMenuInput (str "Choose an option")
    else { m with errMessage := str "Choose 1 for note or 2 for event" }

/-- Go `(m *model).updateNoteWizard`. -/
def updateNoteWizard (env : Env) (m : Model) (msg : Msg) : Model :=
  match m.noteWizard.stage with
  | .content =>
    match msg with
    | .inputText s => { m with noteWizard := { m.noteWizard with contentValue := s } }
    | .esc => m
    | .enter =>
      let value := strTrim m.noteWizard.contentValue
      if isExitCommand value then
        let m := { m with noteWizard := newNoteWizard none, prevStates := [], state := .mainMenu }
        m.setMenuInput (str "Choose an option")
      else if isBackCommand value then
        let m := { m with noteWizard := newNoteWizard none }
        let m := m.popState
        if m.state = .mainMenu then m.setMenuInput (str "Choose an option") else m
      else if value = [] then
        { m with noteWizard := { m.noteWizard with err := str "Note cannot be empty" } }
      else
        let m := { m with noteWizard := { m.noteWizard with err := [] } }
        match m.noteWizard.presetAccount with
        | some preset =>
          match m.saveNote env (some preset.id) with
          | .error e =>
            { m with noteWizard := { m.noteWizard with err := storeErrorMessage e } }
          | .ok m2 =>
            let name := if preset.name = [] then m2.accountDetail.account.name else preset.name
            let message :=
              if name = [] then str "Note saved" else str "Note saved for " ++ name
            m2.completeNoteSave message
        | none => { m with noteWizard := { m.noteWizard with stage := .associateAsk } }
  | .associateAsk =>
    match msg with
    | .inputText s => { m with noteWizard := { m.noteWizard with associateValue := s } }
    | .esc => m
    | .enter =>
      let value := strToLower (strTrim m.noteWizard.associateValue)
      let m := { m with noteWizard := { m.noteWizard with associateValue := [] } }
      if isExitCommand value then
        let m := { m with noteWizard := newNoteWizard none, prevStates := [], state := .mainMenu }
        m.setMenuInput (str "Choose an option")
      else if isBackCommand value then
        { m with noteWizard := { m.noteWizard with stage := .content } }
      else if value = str "y" ∨ value = str "yes" then
        { m with noteWizard := { m.noteWizard with associate := true, stage := .associateChoose } }
      else if value = str "n" ∨ value = str "no" ∨ value = [] then
        let m := { m with noteWizard := { m.noteWizard with associate := false } }
        match m.saveNote env none with
        | .error e => { m with noteWizard := { m.noteWizard with err := storeErrorMessage e } }
        | .ok m2 => m2.completeNoteSave (str "Note saved")
      else { m with noteWizard := { m.noteWizard with err := str "Please answer y or n" } }
  | .associateChoose =>
    match msg with
    | .inputText s => { m with noteWizard := { m.noteWizard with accountValue := s } }
    | .esc => m
    | .enter =>
      let value := strTrim m.noteWizard.accountValue
      if isExitCommand value then
        let m := { m with noteWizard := newNoteWizard none, prevStates := [], state := .mainMenu }
        m.setMenuInput (str "Choose an option")
      else if isBackCommand value then
        { m with noteWizard := { m.noteWizard with stage := .associateAsk } }
      else if value = [] then
        match m.saveNote env none with
        | .error e => { m with noteWizard := { m.noteWizard with err := storeErrorMessage e } }
        | .ok m2 => m2.completeNoteSave (str "Note saved")
      else
        match m.store.accountByName value with
        | none => { m with noteWizard := { m.noteWizard with err := str "Account not found" } }
        | some account =>
          match m.saveNote env (some account.id) with
          | .error e => { m with noteWizard := { m.noteWizard with err := storeErrorMessage e } }
          | .ok m2 => m2.completeNoteSave (str "Note saved for " ++ account.name)

/-- Go `(m *model).updateEventWizard`. -/
def updateEventWizard (env : Env) (m : Model) (msg : Msg) : Model :=
  match m.eventWizard.stage with
  | .title =>
    match msg with
    | .inputText s => { m with eventWizard := { m.eventWizard with titleValue := s } }
    | .esc => m
    | .enter =>
      let value := strTrim m.eventWizard.titleValue
      if isExitCommand value then
        let m := { m with eventWizard := newEventWizard none, prevStates := [], state := .mainMenu }
        m.setMenuInput (str "Choose an option")
      else if isBackCommand value then
        let m := { m with eventWizard := newEventWizard none }
        let m := m.popState
        if m.state = .mainMenu then m.setMenuInput (str "Choose an option") else m
      else if value = [] then
        { m with eventWizard := { m.eventWizard with err := str "Title is required" } }
      else
        { m with eventWizard := { m.eventWizard with err := [], stage := .details } }
  | .details =>
    match msg with
    | .inputText s => { m with eventWizard := { m.eventWizard with detailsValue := s } }
    | .esc => m
    | .enter =>
      let value := strTrim m.eventWizard.detailsValue
      if isExitCommand value then
        let m := { m with eventWizard := newEventWizard none, prevStates := [], state := .mainMenu }
        m.setMenuInput (str "Choose an option")
      else if isBackCommand value then
        { m with eventWizard := { m.eventWizard with stage := .title } }
      else { m with eventWizard := { m.eventWizard with stage := .schedule } }
  | .schedule =>
    match msg with
    | .inputText s => { m with eventWizard := { m.eventWizard with scheduleValue := s } }
    | .esc => m
    | .enter =>
      let value := strTrim m.eventWizard.scheduleValue
      if isExitCommand value then
        let m := { m with eventWizard := newEventWizard none, prevStates := [], state := .mainMenu }
        m.setMenuInput (str "Choose an option")
      else if isBackCommand value then
        { m with eventWizard := { m.eventWizard with stage := .details } }
      else if value ≠ [] ∧ env.parseSchedule value = none then
        { m with eventWizard := { m.eventWizard with err := str "Use format YYYY-MM-DD HH:MM" } }
      else
        let m := { m with eventWizard := { m.eventWizard with err := [] } }
        match m.eventWizard.presetAccount with
        | some preset =>
          match m.saveEvent env (some preset.id) with
          | .error e =>
            { m with eventWizard := { m.eventWizard with err := storeErrorMessage e } }
          | .ok m2 =>
            let name := if preset.name = [] then m2.accountDetail.account.name else preset.name
            let message :=
              if name = [] then str "Event created" else str "Event created for " ++ name
            m2.completeEventSave message
        | none => { m with eventWizard := { m.eventWizard with stage := .associateAsk } }
  | .associateAsk =>
    match msg with
    | .inputText s => { m with eventWizard := { m.eventWizard with associateValue := s } }
    | .esc => m
    | .enter =>
      let value := strToLower (strTrim m.eventWizard.associateValue)
      let m := { m with eventWizard := { m.eventWizard with associateValue := [] } }
      if isExitCommand value then
        let m := { m with eventWizard := newEventWizard none, prevStates := [], state := .mainMenu }
        m.setMenuInput (str "Choose an option")
      else if isBackCommand value then
        { m with eventWizard := { m.eventWizard with stage := .schedule } }
      else if value = str "y" ∨ value = str "yes" then
        { m with eventWizard := { m.eventWizard with associate := true, stage := .associateChoose } }
      else if value = str "n" ∨ value = str "no" ∨ value = [] then
        let m := { m with eventWizard := { m.eventWizard with associate := false } }
        match m.saveEvent env none with
        | .error e => { m with eventWizard := { m.eventWizard with err := storeErrorMessage e } }
        | .ok m2 => m2.completeEventSave (str "Event created")
      else { m with eventWizard := { m.eventWizard with err := str "Please answer y or n" } }
  | .associateChoose =>
    match msg with
    | .inputText s => { m with eventWizard := { m.eventWizard with accountValue := s } }
    | .esc => m
    | .enter =>
      let value := strTrim m.eventWizard.accountValue
      if isExitCommand value then
        let m := { m with eventWizard := newEventWizard none, prevStates := [], state := .mainMenu }
        m.setMenuInput (str "Choose an option")
      else if isBackCommand value then
        { m with eventWizard := { m.eventWizard with stage := .associateAsk } }
      else if value = [] then
        match m.saveEvent env none with
        | .error e => { m with eventWizard := { m.eventWizard with err := storeErrorMessage e } }
        | .ok m2 => m2.completeEventSave (str "Event created")
      else
        match m.store.accountByName value with
        | none => { m with eventWizard := { m.eventWizard with err := str "Account not found" } }
        | some account =>
          match m.saveEvent env (some account.id) with
          | .error e => { m with eventWizard := { m.eventWizard with err := storeErrorMessage e } }
          | .ok m2 => m2.completeEventSave (str "Event created for " ++ account.name)

/-- Go `(m *model).updateDashboard`. -/
def updateDashboard (env : Env) (m : Model) (msg : Msg) : Model :=
  let m := m.ensureMenuInput (str "Command (t=toggle, r=refresh, /, exit.)")
  match msg with
  | .inputText s => { m with menuValue := s }
  | .esc => m
  | .enter =>
    let command := normalizeCommand m.menuValue
    let m := { m with menuValue := [] }
    if command = str "t" ∨ command = str "toggle" then
      { m with dashboardView := if m.dashboardView = .events then .activity else .events }
    else if command = str "r" ∨ command = str "refresh" then m.refreshDashboard
    else if command = str "/" ∨ command = str "back" then
      let m := m.popState
      if m.state = .mainMenu then m.setMenuInput (str "Choose an option") else m
    else if command = str "exit." ∨ command = str "exit" ∨ command = str "quit" then
      let m := { m with prevStates := [], state := .mainMenu }
      m.setMenuInput (str "Choose an option")
    else if command = [] then m
    else { m with errMessage := str "Unknown dashboard command" }

/-- Go `(m *model).updateSettings` (all three settings modes). -/
def updateSettings (env : Env) (m : Model) (msg : Msg) : Model :=
  match m.settings.mode with
  | .viewing =>
    let m := m.ensureMenuInput (str "1=Name  2=Timezone  3=Back")
    match msg with
    | .inputText s => { m with menuValue := s }
    | .esc => m
    | .enter =>
      let value := normalizeCommand m.menuValue
      let m := { m with menuValue := [] }
      if value = str "1" ∨ value = str "name" then
        { m with settings :=
            { m.settings with mode := .editingName, inputValue := m.cfgName } }
      else if value = str "2" ∨ value = str "timezone" then
        { m with settings :=
            { m.settings with mode := .editingTimezone, inputValue := m.cfgTimezone } }
      else if value = str "3" ∨ value = str "back" ∨ value = str "/" then
        let m := m.popState
        if m.state = .mainMenu then m.setMenuInput (str "Choose an option") else m
      else if value = str "exit." ∨ value = str "exit" ∨ value = str "quit" then
        let m := { m with prevStates := [], state := .mainMenu }
        m.setMenuInput (str "Choose an option")
      else { m with settings := { m.settings with err := str "Choose 1 or 2 to edit settings" } }
  | .editingName =>
    match msg with
    | .inputText s => { m with settings := { m.settings with inputValue := s } }
    | .esc => m
    | .enter =>
      let value := strTrim m.settings.inputValue
      if isExitCommand value then
        let m := { m with prevStates := [], state := .mainMenu }
        m.setMenuInput (str "Choose an option")
      else if isBackCommand value then
        { m with settings := { m.settings with mode := .viewing } }
      else if value = [] then
        { m with settings := { m.settings with err := str "Name cannot be empty" } }
      else
        let m := { m with cfgName := value }
        if env.saveConfigOk then
          { m with
            settings := { m.settings with err := [], mode := .viewing }
            infoMessage := str "Name updated" }
        else { m with settings := { m.settings with err := env.saveConfigErr } }
  | .editingTimezone =>
    match msg with
    | .inputText s => { m with settings := { m.settings with inputValue := s } }
    | .esc => m
    | .enter =>
      let value := strTrim m.settings.inputValue
      if isExitCommand value then
        let m := { m with prevStates := [], state := .mainMenu }
        m.setMenuInput (str "Choose an option")
      else if isBackCommand value then
        { m with settings := { m.settings with mode := .viewing } }
      else if value = [] then
        { m with settings := { m.settings with err := str "Timezone cannot be empty" } }
      else if env.validTimezone value then
        let m := { m with cfgTimezone := value }
        if env.saveConfigOk then
          { m with
            settings := { m.settings with err := [], mode := .viewing }
            infoMessage := str "Timezone updated" }
        else { m with settings := { m.settings with err := env.saveConfigErr } }
      else { m with settings := { m.settings with err := str "Invalid timezone" } }

/-- Go `(m *model).Update`: dispatch by the active view (Ctrl+C and window
sizing are outside the message alphabet; the default branch of the Go switch
is dead because the enum is covered). -/
def update (env : Env) (m : Model) (msg : Msg) : Model × Bool :=
  match m.state with
  | .mainMenu => updateMainMenu env m msg
  | .accounts => (updateAccounts env m msg, false)
  | .accountDetail => (updateAccountDetail env m msg, false)
  | .createAccount => (updateAccountForm env m msg, false)
  | .createChoice => (updateCreateChoice env m msg, false)
  | .createNote => (updateNoteWizard env m msg, false)
  | .createEvent => (updateEventWizard env m msg, false)
  | .dashboard => (updateDashboard env m msg, false)
  | .settings => (updateSettings env m msg, false)
  | .settingsEditName => (updateSettings env m msg, false)
  | .settingsEditTimezone => (updateSettings env m msg, false)

/-- Go `newModel`: the initial session state, with the dashboard and account
caches eagerly loaded. -/
def newModel (st : Store) (name tz : Str) : Model :=
  let m : Model :=
    { state := .mainMenu
      prevStates := []
      store := st
      cfgName := name
      cfgTimezone := tz
      infoMessage := []
      errMessage := []
      showSplash := true
      menuValue := []
      menuPlaceholder := str "Choose an option"
      accountFilterValue := []
      accounts := []
      filteredAccounts := []
      accountForm := newAccountForm none
      noteWizard := newNoteWizard none
      eventWizard := newEventWizard none
      dashboardView := .events
      dashboardEvents := []
      dashboardActivity := []
      settings := { mode := .viewing, inputValue := [], err := [] }
      accountDetail := { account := zeroAccount, activity := [], view := .summary, err := [] } }
  m.refreshDashboard.refreshAccounts

/-- Runs a session: fold the transition function over a list of environment
and message pairs starting from the initial model. -/
def runSession (st : Store) (name tz : Str) (steps : List (Env × Msg)) : Model :=
  steps.foldl (fun acc p => (update p.1 acc p.2).1) (newModel st name tz)

/-- The text input that receives typing on the current screen. -/
def focusedValue (m : Model) : Str :=
  match m.state with
  | .mainMenu => m.menuValue
  | .dashboard => m.menuValue
  | .accountDetail => m.menuValue
  | .createChoice => m.menuValue
  | .accounts => m.accountFilterValue
  | .createAccount => m.accountForm.inputValue
  | .createNote =>
    match m.noteWizard.stage with
    | .content => m.noteWizard.contentValue
    | .associateAsk => m.noteWizard.associateValue
    | .associateChoose => m.noteWizard.accountValue
  | .createEvent =>
    match m.eventWizard.stage with
    | .title => m.eventWizard.titleValue
    | .details => m.eventWizard.detailsValue
    | .schedule => m.eventWizard.scheduleValue
    | .associateAsk => m.eventWizard.associateValue
    | .associateChoose => m.eventWizard.accountValue
  | .settings | .settingsEditName | .settingsEditTimezone =>
    match m.settings.mode with
    | .viewing => m.menuValue
    | .editingName => m.settings.inputValue
    | .editingTimezone => m.settings.inputValue

/-- The placeholder `ensureMenuInput` expects on screens that read the
shared menu input. -/
def menuPlaceholderWanted (m : Model) : Option Str :=
  match m.state with
  | .mainMenu => some (str "Choose an option")
  | .dashboard => some (str "Command (t=toggle, r=refresh, /, exit.)")
  | .accountDetail => some (str "1=Activity  2=Add note  3=Add event  4=Edit  5=Back")
  | .createChoice => some (str "1=Note  2=Event  3=Back")
  | .settings =>
    match m.settings.mode with
    | .viewing => some (str "1=Name  2=Timezone  3=Back")
    | _ => none
  | _ => none

/-- States whose `ensureMenuInput` will keep the typed menu value (it resets
the input when the placeholder differs). -/
def placeholderOK (m : Model) : Prop :=
  match menuPlaceholderWanted m with
  | some p => strTrim m.menuPlaceholder = p
  | none => True

/-- The navigation configurations reachable by the session: the stack is
always a prefix of main menu, accounts, account detail, and the active view
sits strictly above it. -/
def allowedConfigs : List (ViewState × List ViewState) :=
  [ (.mainMenu, [])
  , (.dashboard, [.mainMenu])
  , (.accounts, [.mainMenu])
  , (.createAccount, [.mainMenu])
  , (.createChoice, [.mainMenu])
  , (.settings, [.mainMenu])
  , (.createNote, [.mainMenu])
  , (.createEvent, [.mainMenu])
  , (.accountDetail, [.mainMenu, .accounts])
  , (.createAccount, [.mainMenu, .accounts, .accountDetail])
  , (.createNote, [.mainMenu, .accounts, .accountDetail])
  , (.createEvent, [.mainMenu, .accounts, .accountDetail]) ]

/-- Navigation well-formedness invariant. -/
def navOK (m : Model) : Prop := (m.state, m.prevStates) ∈ allowedConfigs

/-- A concrete environment for the closed scenarios: time 1000, a schedule
parser and timezone database that reject everything, config persistence that
succeeds, and an import oracle that does nothing. -/
def envFix : Env :=
  { now := 1000
    parseSchedule := fun _ => none
    validTimezone := fun _ => false
    saveConfigOk := true
    saveConfigErr := []
    importAccounts := fun _ st => (st, [], []) }

/-- A store with no rows. -/
def emptyStore : Store := { accounts := [], notes := [], events := [], nextId := 1 }

/-- The account named Acme of the account-resolver scenario. -/
def acmeAccount : Account := { zeroAccount with id := 1, name := str "Acme" }

/-- The account named Acme Corp of the account-resolver scenario. -/
def acmeCorpAccount : Account := { zeroAccount with id := 2, name := str "Acme Corp" }

/-- A stored account named Acme for the duplicate-name scenarios. -/
def acmeStored : Account :=
  { zeroAccount with id := 7, name := str "Acme", creator := str "Al", createdAt := 5 }

/-- A store holding only the Acme account. -/
def storeWithAcme : Store := { accounts := [acmeStored], notes := [], events := [], nextId := 8 }

/-- Input script of the note-wizard scenario: choose create, choose note,
type the content, decline the association. -/
def noteTrace : List (Env × Msg) :=
  [ (envFix, .inputText (str "4")), (envFix, .enter)
  , (envFix, .inputText (str "1")), (envFix, .enter)
  , (envFix, .inputText (str "Follow up")), (envFix, .enter)
  , (envFix, .inputText (str "n")), (envFix, .enter) ]

/-- Input script of the duplicate-account scenario: add account, submit the
name Acme and the remaining fields (the last submit triggers the save). -/
def dupTrace : List (Env × Msg) :=
  [ (envFix, .inputText (str "3")), (envFix, .enter)
  , (envFix, .inputText (str "Acme")), (envFix, .enter)
  , (envFix, .enter)
  , (envFix, .enter)
  , (envFix, .enter)
  , (envFix, .inputText (str "Dana")), (envFix, .enter) ]

/-- Input script of the account-detail exit scenario: open the accounts
list, open Acme, type the exit token and submit it. -/
def detailExitTrace : List (Env × Msg) :=
  [ (envFix, .inputText (str "2")), (envFix, .enter)
  , (envFix, .inputText (str "Acme")), (envFix, .enter)
  , (envFix, .inputText (str "exit.")), (envFix, .enter) ]

/-- The initial session over the empty store. -/
def baseModel : Model := newModel emptyStore (str "Al") (str "UTC")

/-- Fixture: the note wizard sitting on the y/n associate prompt with a
non-answer typed into the prompt and content already captured. -/
def noteAskModel : Model :=
  { baseModel with
    state := .createNote
    prevStates := [.mainMenu]
    noteWizard :=
      { newNoteWizard none with
        stage := .associateAsk
        contentValue := str "hello"
        associateValue := str "x" } }

/-- Fixture: the account form on its (required) first field with nothing
typed. -/
def formEmptyModel : Model :=
  { baseModel with state := .createAccount, prevStates := [.mainMenu] }

/-- Fixture: the note wizard on its content stage with nothing typed. -/
def noteEmptyModel : Model :=
  { baseModel with state := .createNote, prevStates := [.mainMenu] }

/-- Fixture: the event wizard on its title stage with nothing typed. -/
def eventEmptyModel : Model :=
  { baseModel with state := .createEvent, prevStates := [.mainMenu] }

/-- Fixture: the event wizard on its schedule stage with a malformed
timestamp typed. -/
def eventScheduleModel : Model :=
  { baseModel with
    state := .createEvent
    prevStates := [.mainMenu]
    eventWizard :=
      { newEventWizard none with
        stage := .schedule
        titleValue := str "Standup"
        scheduleValue := str "tomorrow" } }

/-- Fixture: the event wizard on the y/n associate prompt with a non-answer
typed. -/
def eventAskModel : Model :=
  { baseModel with
    state := .createEvent
    prevStates := [.mainMenu]
    eventWizard :=
      { newEventWizard none with
        stage := .associateAsk
        titleValue := str "Standup"
        associateValue := str "x" } }

/-- Fixture: the settings timezone editor with an unloadable zone typed. -/
def tzModel : Model :=
  { baseModel with
    state := .settings
    prevStates := [.mainMenu]
    settings := { mode := .editingTimezone, inputValue := str "Not/AZone", err := [] } }

/-- Fixture: the create-account wizard paused on its last field right before
the duplicate-name save, reached by replaying the duplicate-account script up
to the final submit. -/
def dupFormModel : Model :=
  runSession storeWithAcme (str "Al") (str "UTC") (dupTrace.take 8)

/-- Fixture: the event wizard on its title stage with the exit token typed,
used to witness the universal exit behaviour. -/
def eventExitModel : Model :=
  { baseModel with
    state := .createEvent
    prevStates := [.mainMenu]
    eventWizard := { newEventWizard none with titleValue := str " EXIT. " } }

/-! ### Normalization lemmas -/

theorem lowerChar_spec (c : Char) :
    (c ∈ str "ABCDEFGHIJKLMNOPQRSTUVWXYZ" ∧ lowerChar c ∈ str "abcdefghijklmnopqrstuvwxyz")
      ∨ lowerChar c = c := by
  unfold lowerChar
  split <;> first | (left; decide) | (right; rfl)

theorem isSpaceChar_lowerChar (c : Char) : isSpaceChar (lowerChar c) = isSpaceChar c := by
  rcases lowerChar_spec c with ⟨hc, hl⟩ | h
  · have h1 : ∀ x ∈ str "ABCDEFGHIJKLMNOPQRSTUVWXYZ", isSpaceChar x = false := by decide
    have h2 : ∀ x ∈ str "abcdefghijklmnopqrstuvwxyz", isSpaceChar x = false := by decide
    rw [h1 c hc, h2 _ hl]
  · rw [h]

theorem lowerChar_idem (c : Char) : lowerChar (lowerChar c) = lowerChar c := by
  rcases lowerChar_spec c with ⟨_, hl⟩ | h
  · have h2 : ∀ x ∈ str "abcdefghijklmnopqrstuvwxyz", lowerChar x = x := by decide
    rw [h2 _ hl]
  · rw [h]; exact h

theorem strToLower_dropWhile (s : Str) :
    strToLower (s.dropWhile isSpaceChar) = (strToLower s).dropWhile isSpaceChar := by
  unfold strToLower
  rw [List.dropWhile_map]
  have hp : (isSpaceChar ∘ lowerChar) = isSpaceChar := funext isSpaceChar_lowerChar
  rw [hp]

theorem strToLower_reverse (s : Str) : strToLower s.reverse = (strToLower s).reverse :=
  List.map_reverse lowerChar s

theorem strToLower_strTrim (s : Str) : strToLower (strTrim s) = strTrim (strToLower s) := by
  unfold strTrim
  rw [strToLower_reverse, strToLower_dropWhile, strToLower_reverse, strToLower_dropWhile]

theorem strToLower_idem (s : Str) : strToLower (strToLower s) = strToLower s := by
  unfold strToLower
  rw [List.map_map]
  have : (lowerChar ∘ lowerChar) = lowerChar := funext lowerChar_idem
  rw [this]

theorem strTrim_as_rdropWhile (s : Str) :
    strTrim s = List.rdropWhile isSpaceChar (s.dropWhile isSpaceChar) := rfl

theorem dropWhile_eq_self_of_prefix (p : Char → Bool) {l₁ l₂ : Str}
    (hpre : l₁ <+: l₂) (h : l₂.dropWhile p = l₂) : l₁.dropWhile p = l₁ := by
  cases l₁ with
  | nil => rfl
  | cons a as =>
    obtain ⟨t, ht⟩ := hpre
    cases l₂ with
    | nil => simp at ht
    | cons b bs =>
      have hab : a = b := by
        rw [List.cons_append] at ht
        exact (List.cons.injEq a (as ++ t) b bs).mp ht |>.1
      subst hab
      have hpa : p a = false := by
        by_contra hpa'
        have hpt : p a = true := by simpa using hpa'
        rw [List.dropWhile_cons_of_pos hpt] at h
        have hlen := congrArg List.length h
        have hle := (List.dropWhile_sublist (p := p) (l := bs)).length_le
        simp at hlen
        omega
      rw [List.dropWhile_cons_of_neg (by simp [hpa])]

theorem dropWhile_strTrim (s : Str) :
    (strTrim s).dropWhile isSpaceChar = strTrim s := by
  rw [strTrim_as_rdropWhile]
  exact dropWhile_eq_self_of_prefix isSpaceChar
    (List.rdropWhile_prefix isSpaceChar (s.dropWhile isSpaceChar))
    (List.dropWhile_idempotent isSpaceChar s)

theorem strTrim_idem (s : Str) : strTrim (strTrim s) = strTrim s := by
  conv_lhs => rw [strTrim_as_rdropWhile (strTrim s)]
  rw [dropWhile_strTrim, strTrim_as_rdropWhile]
  exact List.rdropWhile_idempotent isSpaceChar (s.dropWhile isSpaceChar)

theorem normalizeCommand_strTrim (s : Str) :
    normalizeCommand (strTrim s) = normalizeCommand s := by
  unfold normalizeCommand
  rw [strToLower_strTrim, strTrim_idem]

theorem normalizeCommand_lower_trim (s : Str) :
    normalizeCommand (strToLower (strTrim s)) = normalizeCommand s := by
  unfold normalizeCommand
  rw [strToLower_idem, strToLower_strTrim, strTrim_idem]

theorem isExitCommand_strTrim (v : Str) : isExitCommand (strTrim v) = isExitCommand v := by
  unfold isExitCommand
  rw [normalizeCommand_strTrim]

theorem isBackCommand_strTrim (v : Str) : isBackCommand (strTrim v) = isBackCommand v := by
  unfold isBackCommand
  rw [normalizeCommand_strTrim]

theorem isExitCommand_lower_trim (v : Str) :
    isExitCommand (strToLower (strTrim v)) = isExitCommand v := by
  unfold isExitCommand
  rw [normalizeCommand_lower_trim]

theorem isBackCommand_lower_trim (v : Str) :
    isBackCommand (strToLower (strTrim v)) = isBackCommand v := by
  unfold isBackCommand
  rw [normalizeCommand_lower_trim]

theorem isExitCommand_true_iff (v : Str) :
    isExitCommand v = true ↔
      normalizeCommand v = str "exit." ∨ normalizeCommand v = str "quit" := by
  unfold isExitCommand
  simp [Bool.or_eq_true, beq_iff_eq]

/-! ### Command resolver lemmas (claims C1 and C2) -/

theorem resolveMenu_synonym (opts : List MenuOption) (input : Str) (o : MenuOption)
    (hne : ∀ p ∈ opts, ∀ s ∈ p.synonyms, s ≠ ([] : Str))
    (huniq : ∀ p ∈ opts, ∀ q ∈ opts, ∀ s ∈ p.synonyms, s ∈ q.synonyms → p.id = q.id)
    (ho : o ∈ opts) (hs : normalizeCommand input ∈ o.synonyms) :
    resolveMenu opts input = some o.id := by
  have hv : normalizeCommand input ≠ [] := hne o ho _ hs
  rcases hfind : opts.find? (fun q => q.synonyms.contains (normalizeCommand input)) with _ | p
  · exfalso
    have hnone := List.find?_eq_none.mp hfind o ho
    exact hnone (List.elem_iff.mpr hs)
  · have hp := List.find?_some hfind
    have hpo : p ∈ opts := List.mem_of_find?_eq_some hfind
    have hid : p.id = o.id := huniq p hpo o ho _ (List.elem_iff.mp hp) hs
    have hfind' : findSynonym opts (normalizeCommand input) = some p := hfind
    simp only [resolveMenu, if_neg hv, hfind', hid]

theorem resolveMenu_no_synonym (opts : List MenuOption) (input : Str)
    (h1 : normalizeCommand input ≠ [])
    (h2 : ∀ o ∈ opts, normalizeCommand input ∉ o.synonyms) :
    resolveMenu opts input =
      match stemCandidates opts (normalizeCommand input) with
      | [i] => some i
      | _ => none := by
  have hfind : findSynonym opts (normalizeCommand input) = none := by
    apply List.find?_eq_none.mpr
    intro o ho hc
    exact h2 o ho (List.elem_iff.mp hc)
  unfold resolveMenu
  rw [if_neg h1, hfind]

/-- C1: any input whose trimmed lowercased form equals a declared synonym of
an option in the main-menu table or the account-detail table resolves to that
option's id, regardless of any keyword-prefix overlap, because the synonym
phase runs before the prefix phase. -/
theorem claim1_synonyms_win (input : Str) (o : MenuOption) :
    (o ∈ mainMenuOptions → normalizeCommand input ∈ o.synonyms →
      resolveMainMenuSelection input = some o.id) ∧
    (o ∈ accountDetailOptions → normalizeCommand input ∈ o.synonyms →
      resolveAccountDetailAction input = some o.id) := by
  constructor
  · intro ho hs
    exact resolveMenu_synonym _ _ _ (by decide) (by decide) ho hs
  · intro ho hs
    exact resolveMenu_synonym _ _ _ (by decide) (by decide) ho hs

/-- Witness for C1: " NoTe " is a synonym of the create option after
normalization even though "note" is also a keyword of that option, and
"EXIT." is a synonym of the back action. -/
theorem claim1_witness :
    resolveMainMenuSelection (str " NoTe ") = some (str "create") ∧
    resolveAccountDetailAction (str "EXIT.") = some (str "back") := by
  constructor
  · exact (claim1_synonyms_win (str " NoTe ")
      { id := str "create"
        keywords := [str "create", str "note", str "event"]
        synonyms := [str "4", str "create", str "note", str "event",
          str "create note", str "create event"] }).1 (by decide) (by decide)
  · exact (claim1_synonyms_win (str "EXIT.")
      { id := str "back"
        keywords := [str "back", str "close"]
        synonyms := [str "5", str "back", str "exit", str "exit.", str "/"] }).2
      (by decide) (by decide)

/-- C2: on a non-empty normalized input matching no synonym, the resolver
returns the single candidate option when the input is a keyword prefix of
exactly one distinct option, and fails (none) when zero or several distinct
options carry such a keyword; several matching keywords inside one option
count once (stemCandidates deduplicates per option id). -/
theorem claim2_prefix_resolution (input : Str)
    (h1 : normalizeCommand input ≠ [])
    (h2 : ∀ o ∈ mainMenuOptions, normalizeCommand input ∉ o.synonyms) :
    resolveMainMenuSelection input =
      match stemCandidates mainMenuOptions (normalizeCommand input) with
      | [i] => some i
      | _ => none :=
  resolveMenu_no_synonym mainMenuOptions input h1 h2

/-- Witness for C2: the input "da" is no synonym and stems only the
dashboard keyword, so it resolves to the dashboard option. -/
theorem claim2_witness :
    resolveMainMenuSelection (str "da") = some (str "dashboard") := by
  have h := claim2_prefix_resolution (str "da") (by decide) (by decide)
  exact h.trans (by decide)

/-! ### Account selection resolver (claim C3) -/

/-- C3 counterexample: with the filtered list Acme, Acme Corp (also the full
list), the input "acme" does not fail as an ambiguous prefix: the exact
phase compares names with EqualFold, i.e. case-insensitively, so "acme"
matches the account named "Acme" before any prefix logic runs. -/
theorem claim3_counterexample :
    resolveAccountSelection [acmeAccount, acmeCorpAccount] [acmeAccount, acmeCorpAccount]
      (str "acme") = some acmeAccount := by decide

/-- C3 amended: with the filtered list Acme, Acme Corp, both "Acme" and
"acme" resolve to the account named "Acme": the exact-name phase is
case-insensitive and runs before prefix matching, so neither input reaches
the ambiguous-prefix failure; a strict prefix such as "acm" still fails as
ambiguous. -/
theorem claim3_amended :
    resolveAccountSelection [acmeAccount, acmeCorpAccount] [acmeAccount, acmeCorpAccount]
      (str "Acme") = some acmeAccount ∧
    resolveAccountSelection [acmeAccount, acmeCorpAccount] [acmeAccount, acmeCorpAccount]
      (str "acme") = some acmeAccount ∧
    resolveAccountSelection [acmeAccount, acmeCorpAccount] [acmeAccount, acmeCorpAccount]
      (str "acm") = none := by decide

/-! ### Event classifier (claim C5) -/

/-- C5: SplitEvents puts an event into today exactly when its time lies in
the half-open day window (an event at exactly dayStart is in today, one
strictly before dayStart never is), puts events after now that are outside
the window into upcoming, everything else into past, and orders today and
upcoming ascending and past descending by event time. -/
theorem claim5_split_events (events : List Event) (now tzOffset : Int) :
    (∀ e, e ∈ (splitEvents events now tzOffset).1 ↔
        e ∈ events ∧ startOfDayAt now tzOffset ≤ e.eventTime ∧
          e.eventTime < startOfDayAt now tzOffset + dayNanos) ∧
    (∀ e, e ∈ events → e.eventTime = startOfDayAt now tzOffset →
        e ∈ (splitEvents events now tzOffset).1) ∧
    (∀ e, e.eventTime < startOfDayAt now tzOffset →
        e ∉ (splitEvents events now tzOffset).1) ∧
    (∀ e, e ∈ (splitEvents events now tzOffset).2.1 ↔
        e ∈ events ∧
          ¬(startOfDayAt now tzOffset ≤ e.eventTime ∧
            e.eventTime < startOfDayAt now tzOffset + dayNanos) ∧
          now < e.eventTime) ∧
    (∀ e, e ∈ (splitEvents events now tzOffset).2.2 ↔
        e ∈ events ∧
          ¬(startOfDayAt now tzOffset ≤ e.eventTime ∧
            e.eventTime < startOfDayAt now tzOffset + dayNanos) ∧
          ¬now < e.eventTime) ∧
    (splitEvents events now tzOffset).1.Sorted eventTimeLe ∧
    (splitEvents events now tzOffset).2.1.Sorted eventTimeLe ∧
    (splitEvents events now tzOffset).2.2.Sorted eventTimeGe := by
  have htoday : ∀ e, e ∈ (splitEvents events now tzOffset).1 ↔
      e ∈ events ∧ startOfDayAt now tzOffset ≤ e.eventTime ∧
        e.eventTime < startOfDayAt now tzOffset + dayNanos := by
    intro e
    unfold splitEvents
    rw [(List.perm_insertionSort eventTimeLe _).mem_iff, List.mem_filter]
    simp [Bool.and_eq_true, decide_eq_true_iff]
  refine ⟨htoday, ?_, ?_, ?_, ?_, ?_, ?_, ?_⟩
  · intro e he heq
    refine (htoday e).mpr ⟨he, ?_, ?_⟩
    · omega
    · have : (0 : Int) < dayNanos := by decide
      omega
  · intro e hlt hmem
    have := (htoday e).mp hmem
    omega
  · intro e
    unfold splitEvents
    rw [(List.perm_insertionSort eventTimeLe _).mem_iff, List.mem_filter]
    simp only [Bool.and_eq_true, Bool.not_eq_true', Bool.and_eq_false_iff,
      decide_eq_true_iff, decide_eq_false_iff_not]
    constructor
    · rintro ⟨he, ⟨hw, hn⟩⟩
      refine ⟨he, ?_, hn⟩
      rcases hw with h | h
      · intro ⟨h1, _⟩; exact h h1
      · intro ⟨_, h2⟩; exact h h2
    · rintro ⟨he, hw, hn⟩
      refine ⟨he, ?_, hn⟩
      by_cases h1 : startOfDayAt now tzOffset ≤ e.eventTime
      · right; intro h2; exact hw ⟨h1, h2⟩
      · left; exact h1
  · intro e
    unfold splitEvents
    rw [(List.perm_insertionSort eventTimeGe _).mem_iff, List.mem_filter]
    simp only [Bool.and_eq_true, Bool.not_eq_true', Bool.and_eq_false_iff,
      decide_eq_true_iff, decide_eq_false_iff_not]
    constructor
    · rintro ⟨he, ⟨hw, hn⟩⟩
      refine ⟨he, ?_, hn⟩
      rcases hw with h | h
      · intro ⟨h1, _⟩; exact h h1
      · intro ⟨_, h2⟩; exact h h2
    · rintro ⟨he, hw, hn⟩
      refine ⟨he, ?_, hn⟩
      by_cases h1 : startOfDayAt now tzOffset ≤ e.eventTime
      · right; intro h2; exact hw ⟨h1, h2⟩
      · left; exact h1
  · exact List.sorted_insertionSort eventTimeLe _
  · exact List.sorted_insertionSort eventTimeLe _
  · exact List.sorted_insertionSort eventTimeGe _

/-! ### Navigation stack algebra (claim C10) -/

/-- C10: pushing a view and immediately popping restores the session's
active view and navigation stack exactly. -/
theorem claim10_pop_of_push (m : Model) (v : ViewState) :
    (m.pushState v).popState = m := by
  unfold Model.pushState Model.popState
  simp

/-! ### Duplicate-name handling in the account form (claim C4) -/

/-- C4 counterexample: running the create-account wizard against a store
already holding "Acme" and submitting the last field leaves the duplicate
error and resets the cursor, but the visible input is cleared rather than
still showing the typed name ("Acme" survives only in the stored field
value, not in the input). -/
theorem claim4_counterexample :
    (runSession storeWithAcme (str "Al") (str "UTC") dupTrace).accountForm.err =
      str "An account with that name already exists" ∧
    (runSession storeWithAcme (str "Al") (str "UTC") dupTrace).accountForm.index = 0 ∧
    (runSession storeWithAcme (str "Al") (str "UTC") dupTrace).accountForm.inputValue = [] ∧
    (fieldAt (runSession storeWithAcme (str "Al") (str "UTC") dupTrace).accountForm.fields
      0).value = str "Acme" := by decide

/-- C4 amended: submitting the last field of a new-account form whose name
field duplicates a stored account does not abort the flow: the duplicate
error is set, the cursor returns to the name field (index 0) and its
placeholder, the navigation and store are untouched, and the typed name is
preserved in the form's field values - but the input box itself is cleared
(unlike the edit flow, which re-displays the name). -/
theorem claim4_amended (env : Env) (m : Model) (f0 f1 f2 f3 f4 : FormField)
    (hstate : m.state = .createAccount)
    (hfields : m.accountForm.fields = [f0, f1, f2, f3, f4])
    (hidx : m.accountForm.index = 4)
    (hedit : m.accountForm.editing = false)
    (hexit : isExitCommand (strTrim m.accountForm.inputValue) = false)
    (hback : isBackCommand (strTrim m.accountForm.inputValue) = false)
    (hreq : f4.required = false ∨ strTrim m.accountForm.inputValue ≠ [])
    (hname : strTrim f0.value ≠ [])
    (hdup : ∃ b ∈ m.store.accounts, b.name = strTrim f0.value) :
    (update env m .enter).1.state = .createAccount ∧
    (update env m .enter).1.prevStates = m.prevStates ∧
    (update env m .enter).1.accountForm.err =
      str "An account with that name already exists" ∧
    (update env m .enter).1.accountForm.index = 0 ∧
    (update env m .enter).1.accountForm.inputValue = [] ∧
    (update env m .enter).1.accountForm.inputPlaceholder = f0.label ∧
    (update env m .enter).1.accountForm.fields =
      [f0, f1, f2, f3, { f4 with value := strTrim m.accountForm.inputValue }] ∧
    (update env m .enter).1.store = m.store := by
  have hstep : (update env m .enter).1 = updateAccountForm env m .enter := by
    simp only [update, hstate]
  obtain ⟨b, hb, hbname⟩ := hdup
  have hdupb : m.store.accounts.any
      (fun c => c.name == strTrim f0.value) = true := by
    refine List.any_eq_true.mpr ⟨b, hb, ?_⟩
    rw [hbname]
    exact beq_self_eq_true _
  have hform : updateAccountForm env m .enter =
      { m with accountForm :=
          { m.accountForm with
            fields := [f0, f1, f2, f3, { f4 with value := strTrim m.accountForm.inputValue }]
            inputValue := []
            err := str "An account with that name already exists"
            index := 0
            inputPlaceholder := f0.label } } := by
    rcases hreq with hr | hr
    · simp only [updateAccountForm, hexit, hback, Bool.false_eq_true, if_false,
        hfields, hidx, hedit, fieldAt]
      simp [hr, Store.createAccount, hname, apply_ite, hdupb, buildAccount]
    · simp only [updateAccountForm, hexit, hback, Bool.false_eq_true, if_false,
        hfields, hidx, hedit, fieldAt]
      simp [hr, Store.createAccount, hname, apply_ite, hdupb, buildAccount]
  rw [hstep, hform]
  simp [hstate]

/-- Witness for C4: the replayed duplicate-account session satisfies every
hypothesis of the amended claim, and submitting the last field produces the
duplicate error with the cursor on the cleared name input. -/
theorem claim4_witness :
    (update envFix dupFormModel .enter).1.state = .createAccount ∧
    (update envFix dupFormModel .enter).1.prevStates = dupFormModel.prevStates ∧
    (update envFix dupFormModel .enter).1.accountForm.err =
      str "An account with that name already exists" ∧
    (update envFix dupFormModel .enter).1.accountForm.index = 0 ∧
    (update envFix dupFormModel .enter).1.accountForm.inputValue = [] ∧
    (update envFix dupFormModel .enter).1.accountForm.inputPlaceholder = str "Account name" ∧
    (update envFix dupFormModel .enter).1.accountForm.fields =
      [ { label := str "Account name", value := str "Acme", required := true }
      , { label := str "Phone", value := [], required := false }
      , { label := str "Address", value := [], required := false }
      , { label := str "Email", value := [], required := false }
      , { label := str "Decision maker", value := str "Dana", required := false } ] ∧
    (update envFix dupFormModel .enter).1.store = dupFormModel.store :=
  claim4_amended envFix dupFormModel
    { label := str "Account name", value := str "Acme", required := true }
    { label := str "Phone", value := [], required := false }
    { label := str "Address", value := [], required := false }
    { label := str "Email", value := [], required := false }
    { label := str "Decision maker", value := [], required := false }
    (by decide) (by decide) (by decide) (by decide) (by decide) (by decide)
    (by decide) (by decide) ⟨acmeStored, by decide, by decide⟩

/-! ### Universal exit token (claim C6) -/

/-- C6 counterexample: on the account-detail screen the exit token is a
synonym of the Back action, so with the stack holding main menu and the
accounts list, submitting "exit." pops a single level to the accounts list
instead of clearing the whole stack and activating the root view. -/
theorem claim6_counterexample :
    (runSession storeWithAcme (str "Al") (str "UTC") (detailExitTrace.take 5)).state =
      .accountDetail ∧
    focusedValue (runSession storeWithAcme (str "Al") (str "UTC") (detailExitTrace.take 5)) =
      str "exit." ∧
    (runSession storeWithAcme (str "Al") (str "UTC") detailExitTrace).state = .accounts ∧
    (runSession storeWithAcme (str "Al") (str "UTC") detailExitTrace).prevStates =
      [.mainMenu] := by decide

/-- C6 amended: on every text-accepting screen except the account-detail
menu (where the exit token maps to the Back action and pops one level) and
the main menu itself (where it quits the program), submitting input whose
trimmed lowercased form is an exit token clears the entire navigation stack
and activates the root main-menu view; the check runs before any
stage-specific validation, so it succeeds from any wizard stage or invalid
state. -/
theorem claim6_amended (env : Env) (m : Model)
    (hscreen : m.state ∈ [ViewState.accounts, .createAccount, .createNote, .createEvent,
      .dashboard, .createChoice, .settings])
    (hph : placeholderOK m)
    (hexit : isExitCommand (focusedValue m) = true) :
    (update env m .enter).1.state = .mainMenu ∧ (update env m .enter).1.prevStates = [] := by
  simp only [List.mem_cons, List.not_mem_nil, or_false] at hscreen
  rcases hscreen with hstate | hstate | hstate | hstate | hstate | hstate | hstate
  · -- accounts list
    simp only [focusedValue, hstate] at hexit
    have hx : isExitCommand (strTrim m.accountFilterValue) = true := by
      rw [isExitCommand_strTrim]; exact hexit
    simp [update, hstate, updateAccounts, hx, Model.setMenuInput]
  · -- account form
    simp only [focusedValue, hstate] at hexit
    have hx : isExitCommand (strTrim m.accountForm.inputValue) = true := by
      rw [isExitCommand_strTrim]; exact hexit
    simp [update, hstate, updateAccountForm, hx, Model.setMenuInput]
  · -- note wizard, all stages
    rcases hstage : m.noteWizard.stage with _ | _ | _
    · simp only [focusedValue, hstate, hstage] at hexit
      have hx : isExitCommand (strTrim m.noteWizard.contentValue) = true := by
        rw [isExitCommand_strTrim]; exact hexit
      simp [update, hstate, updateNoteWizard, hstage, hx, Model.setMenuInput]
    · simp only [focusedValue, hstate, hstage] at hexit
      have hx : isExitCommand (strToLower (strTrim m.noteWizard.associateValue)) = true := by
        rw [isExitCommand_lower_trim]; exact hexit
      simp [update, hstate, updateNoteWizard, hstage, hx, Model.setMenuInput]
    · simp only [focusedValue, hstate, hstage] at hexit
      have hx : isExitCommand (strTrim m.noteWizard.accountValue) = true := by
        rw [isExitCommand_strTrim]; exact hexit
      simp [update, hstate, updateNoteWizard, hstage, hx, Model.setMenuInput]
  · -- event wizard, all stages
    rcases hstage : m.eventWizard.stage with _ | _ | _ | _ | _
    · simp only [focusedValue, hstate, hstage] at hexit
      have hx : isExitCommand (strTrim m.eventWizard.titleValue) = true := by
        rw [isExitCommand_strTrim]; exact hexit
      simp [update, hstate, updateEventWizard, hstage, hx, Model.setMenuInput]
    · simp only [focusedValue, hstate, hstage] at hexit
      have hx : isExitCommand (strTrim m.eventWizard.detailsValue) = true := by
        rw [isExitCommand_strTrim]; exact hexit
      simp [update, hstate, updateEventWizard, hstage, hx, Model.setMenuInput]
    · simp only [focusedValue, hstate, hstage] at hexit
      have hx : isExitCommand (strTrim m.eventWizard.scheduleValue) = true := by
        rw [isExitCommand_strTrim]; exact hexit
      simp [update, hstate, updateEventWizard, hstage, hx, Model.setMenuInput]
    · simp only [focusedValue, hstate, hstage] at hexit
      have hx : isExitCommand (strToLower (strTrim m.eventWizard.associateValue)) = true := by
        rw [isExitCommand_lower_trim]; exact hexit
      simp [update, hstate, updateEventWizard, hstage, hx, Model.setMenuInput]
    · simp only [focusedValue, hstate, hstage] at hexit
      have hx : isExitCommand (strTrim m.eventWizard.accountValue) = true := by
        rw [isExitCommand_strTrim]; exact hexit
      simp [update, hstate, updateEventWizard, hstage, hx, Model.setMenuInput]
  · -- dashboard
    simp only [focusedValue, hstate] at hexit
    simp only [placeholderOK, menuPlaceholderWanted, hstate] at hph
    rcases (isExitCommand_true_iff _).mp hexit with hcmd | hcmd
    · simp only [update, hstate, updateDashboard, Model.ensureMenuInput, hph,
        beq_self_eq_true, if_true, hcmd]
      rw [if_neg (by decide), if_neg (by decide), if_neg (by decide), if_pos (by decide)]
      simp [Model.setMenuInput]
    · simp only [update, hstate, updateDashboard, Model.ensureMenuInput, hph,
        beq_self_eq_true, if_true, hcmd]
      rw [if_neg (by decide), if_neg (by decide), if_neg (by decide), if_pos (by decide)]
      simp [Model.setMenuInput]
  · -- create choice
    simp only [focusedValue, hstate] at hexit
    simp only [placeholderOK, menuPlaceholderWanted, hstate] at hph
    rcases (isExitCommand_true_iff _).mp hexit with hcmd | hcmd
    · simp only [update, hstate, updateCreateChoice, Model.ensureMenuInput, hph,
        beq_self_eq_true, if_true, hcmd]
      rw [if_neg (by decide), if_neg (by decide), if_neg (by decide), if_pos (by decide)]
      simp [Model.setMenuInput]
    · simp only [update, hstate, updateCreateChoice, Model.ensureMenuInput, hph,
        beq_self_eq_true, if_true, hcmd]
      rw [if_neg (by decide), if_neg (by decide), if_neg (by decide), if_pos (by decide)]
      simp [Model.setMenuInput]
  · -- settings (all three modes)
    rcases hmode : m.settings.mode with _ | _ | _
    · simp only [focusedValue, hstate, hmode] at hexit
      simp only [placeholderOK, menuPlaceholderWanted, hstate, hmode] at hph
      rcases (isExitCommand_true_iff _).mp hexit with hcmd | hcmd
      · simp only [update, hstate, updateSettings, hmode, Model.ensureMenuInput, hph,
          beq_self_eq_true, if_true, hcmd]
        rw [if_neg (by decide), if_neg (by decide), if_neg (by decide), if_pos (by decide)]
        simp [Model.setMenuInput]
      · simp only [update, hstate, updateSettings, hmode, Model.ensureMenuInput, hph,
          beq_self_eq_true, if_true, hcmd]
        rw [if_neg (by decide), if_neg (by decide), if_neg (by decide), if_pos (by decide)]
        simp [Model.setMenuInput]
    · simp only [focusedValue, hstate, hmode] at hexit
      have hx : isExitCommand (strTrim m.settings.inputValue) = true := by
        rw [isExitCommand_strTrim]; exact hexit
      simp [update, hstate, updateSettings, hmode, hx, Model.setMenuInput]
    · simp only [focusedValue, hstate, hmode] at hexit
      have hx : isExitCommand (strTrim m.settings.inputValue) = true := by
        rw [isExitCommand_strTrim]; exact hexit
      simp [update, hstate, updateSettings, hmode, hx, Model.setMenuInput]

/-- Witness for C6: an event wizard on its (required) title stage with the
token " EXIT. " typed is released straight to the root view with an empty
stack, although the title validator would have rejected the input. -/
theorem claim6_witness :
    (update envFix eventExitModel .enter).1.state = .mainMenu ∧
    (update envFix eventExitModel .enter).1.prevStates = [] :=
  claim6_amended envFix eventExitModel (by decide) True.intro (by decide)

/-! ### Note wizard end-to-end (claim C7) -/

/-- C7 counterexample: the note wizard with no preset account is entered by
the create-choice screen replacing itself (no push), so after a successful
save the pop lands on the main menu, not on the create-choice view that was
active immediately before the wizard started. -/
theorem claim7_counterexample :
    (runSession emptyStore (str "Al") (str "UTC") (noteTrace.take 3)).state =
      .createChoice ∧
    (runSession emptyStore (str "Al") (str "UTC") (noteTrace.take 4)).state =
      .createNote ∧
    (runSession emptyStore (str "Al") (str "UTC") noteTrace).state = .mainMenu ∧
    ViewState.mainMenu ≠ ViewState.createChoice := by decide

/-- C7 amended: the note wizard run with no preset account, non-empty
content and answer n saves an unassociated note record, sets the
confirmation message "Note saved", resets the wizard to its fresh default
state, and navigation lands on the view on top of the stack - the view from
which the create-choice screen was entered (here the main menu), the
create-choice screen itself being skipped because it replaced itself in
place. -/
theorem claim7_amended :
    (runSession emptyStore (str "Al") (str "UTC") noteTrace).store.notes =
      [ { id := 1, content := str "Follow up", accountId := none
        , creator := str "Al", createdAt := 1000 } ] ∧
    (runSession emptyStore (str "Al") (str "UTC") noteTrace).infoMessage =
      str "Note saved" ∧
    (runSession emptyStore (str "Al") (str "UTC") noteTrace).noteWizard =
      newNoteWizard none ∧
    (runSession emptyStore (str "Al") (str "UTC") noteTrace).state = .mainMenu ∧
    (runSession emptyStore (str "Al") (str "UTC") noteTrace).prevStates = [] := by decide

/-! ### Validation errors are stage-local (claim C8) -/

/-- C8 counterexample: answering the note wizard's associate prompt with a
non-answer sets the stage error but also clears the prompt's input buffer,
so the error string is not the only state change and the buffers are not all
intact. -/
theorem claim8_counterexample :
    noteAskModel.noteWizard.associateValue = str "x" ∧
    (update envFix noteAskModel .enter).1.noteWizard.err =
      str "Please answer y or n" ∧
    (update envFix noteAskModel .enter).1.noteWizard.associateValue = [] := by decide

theorem isExitCommand_nil : isExitCommand [] = false := by decide

theorem isBackCommand_nil : isBackCommand [] = false := by decide

/-- C8 amended: every listed validator rejection (empty required form field,
empty note content, empty event title, malformed event schedule, invalid
timezone, non-y/n associate answer) only sets the stage-scoped error string,
leaving the stage, the buffers, the active view and the navigation stack
unchanged - with the single exception that the y/n associate prompts clear
their own input buffer on every submission. -/
theorem claim8_amended (env : Env) (m : Model) :
    (m.state = .createAccount →
      strTrim m.accountForm.inputValue = [] →
      (fieldAt m.accountForm.fields m.accountForm.index).required = true →
      (update env m .enter).1 =
        { m with accountForm :=
            { m.accountForm with err := str "This field is required" } }) ∧
    (m.state = .createNote → m.noteWizard.stage = .content →
      strTrim m.noteWizard.contentValue = [] →
      (update env m .enter).1 =
        { m with noteWizard :=
            { m.noteWizard with err := str "Note cannot be empty" } }) ∧
    (m.state = .createEvent → m.eventWizard.stage = .title →
      strTrim m.eventWizard.titleValue = [] →
      (update env m .enter).1 =
        { m with eventWizard :=
            { m.eventWizard with err := str "Title is required" } }) ∧
    (m.state = .createEvent → m.eventWizard.stage = .schedule →
      strTrim m.eventWizard.scheduleValue ≠ [] →
      isExitCommand (strTrim m.eventWizard.scheduleValue) = false →
      isBackCommand (strTrim m.eventWizard.scheduleValue) = false →
      env.parseSchedule (strTrim m.eventWizard.scheduleValue) = none →
      (update env m .enter).1 =
        { m with eventWizard :=
            { m.eventWizard with err := str "Use format YYYY-MM-DD HH:MM" } }) ∧
    (m.state = .createNote → m.noteWizard.stage = .associateAsk →
      isExitCommand (strToLower (strTrim m.noteWizard.associateValue)) = false →
      isBackCommand (strToLower (strTrim m.noteWizard.associateValue)) = false →
      strToLower (strTrim m.noteWizard.associateValue) ≠ str "y" →
      strToLower (strTrim m.noteWizard.associateValue) ≠ str "yes" →
      strToLower (strTrim m.noteWizard.associateValue) ≠ str "n" →
      strToLower (strTrim m.noteWizard.associateValue) ≠ str "no" →
      strToLower (strTrim m.noteWizard.associateValue) ≠ [] →
      (update env m .enter).1 =
        { m with noteWizard :=
            { m.noteWizard with associateValue := [], err := str "Please answer y or n" } }) ∧
    (m.state = .createEvent → m.eventWizard.stage = .associateAsk →
      isExitCommand (strToLower (strTrim m.eventWizard.associateValue)) = false →
      isBackCommand (strToLower (strTrim m.eventWizard.associateValue)) = false →
      strToLower (strTrim m.eventWizard.associateValue) ≠ str "y" →
      strToLower (strTrim m.eventWizard.associateValue) ≠ str "yes" →
      strToLower (strTrim m.eventWizard.associateValue) ≠ str "n" →
      strToLower (strTrim m.eventWizard.associateValue) ≠ str "no" →
      strToLower (strTrim m.eventWizard.associateValue) ≠ [] →
      (update env m .enter).1 =
        { m with eventWizard :=
            { m.eventWizard with associateValue := [], err := str "Please answer y or n" } }) ∧
    (m.state = .settings → m.settings.mode = .editingTimezone →
      strTrim m.settings.inputValue ≠ [] →
      isExitCommand (strTrim m.settings.inputValue) = false →
      isBackCommand (strTrim m.settings.inputValue) = false →
      env.validTimezone (strTrim m.settings.inputValue) = false →
      (update env m .enter).1 =
        { m with settings :=
            { m.settings with err := str "Invalid timezone" } }) := by
  refine ⟨?_, ?_, ?_, ?_, ?_, ?_, ?_⟩
  · intro hstate hval hreq
    have hx : isExitCommand (strTrim m.accountForm.inputValue) = false := by
      rw [hval]; decide
    have hb : isBackCommand (strTrim m.accountForm.inputValue) = false := by
      rw [hval]; decide
    simp [update, hstate, updateAccountForm, hx, hb, hval, hreq,
      isExitCommand_nil, isBackCommand_nil]
  · intro hstate hstage hval
    have hx : isExitCommand (strTrim m.noteWizard.contentValue) = false := by
      rw [hval]; decide
    have hb : isBackCommand (strTrim m.noteWizard.contentValue) = false := by
      rw [hval]; decide
    simp [update, hstate, updateNoteWizard, hstage, hx, hb, hval,
      isExitCommand_nil, isBackCommand_nil]
  · intro hstate hstage hval
    have hx : isExitCommand (strTrim m.eventWizard.titleValue) = false := by
      rw [hval]; decide
    have hb : isBackCommand (strTrim m.eventWizard.titleValue) = false := by
      rw [hval]; decide
    simp [update, hstate, updateEventWizard, hstage, hx, hb, hval,
      isExitCommand_nil, isBackCommand_nil]
  · intro hstate hstage hval hx hb hparse
    simp [update, hstate, updateEventWizard, hstage, hx, hb, hval, hparse]
  · intro hstate hstage hx hb h1 h2 h3 h4 h5
    simp [update, hstate, updateNoteWizard, hstage, hx, hb, h1, h2, h3, h4, h5]
  · intro hstate hstage hx hb h1 h2 h3 h4 h5
    simp [update, hstate, updateEventWizard, hstage, hx, hb, h1, h2, h3, h4, h5]
  · intro hstate hmode hval hx hb htz
    simp [update, hstate, updateSettings, hmode, hx, hb, hval, htz]

/-- Witness for C8: concrete sessions exercising the empty required name
field, the empty note content, the empty event title, a malformed schedule
timestamp, a non-answer at both associate prompts, and an invalid timezone,
each touching only the corresponding error string (and, for the associate
prompts, the cleared prompt buffer). -/
theorem claim8_witness :
    ((update envFix formEmptyModel .enter).1 =
      { formEmptyModel with accountForm :=
          { formEmptyModel.accountForm with err := str "This field is required" } }) ∧
    ((update envFix noteEmptyModel .enter).1 =
      { noteEmptyModel with noteWizard :=
          { noteEmptyModel.noteWizard with err := str "Note cannot be empty" } }) ∧
    ((update envFix eventEmptyModel .enter).1 =
      { eventEmptyModel with eventWizard :=
          { eventEmptyModel.eventWizard with err := str "Title is required" } }) ∧
    ((update envFix eventScheduleModel .enter).1 =
      { eventScheduleModel with eventWizard :=
          { eventScheduleModel.eventWizard with err := str "Use format YYYY-MM-DD HH:MM" } }) ∧
    ((update envFix noteAskModel .enter).1 =
      { noteAskModel with noteWizard :=
          { noteAskModel.noteWizard with
            associateValue := [], err := str "Please answer y or n" } }) ∧
    ((update envFix eventAskModel .enter).1 =
      { eventAskModel with eventWizard :=
          { eventAskModel.eventWizard with
            associateValue := [], err := str "Please answer y or n" } }) ∧
    ((update envFix tzModel .enter).1 =
      { tzModel with settings :=
          { tzModel.settings with err := str "Invalid timezone" } }) :=
  ⟨(claim8_amended envFix formEmptyModel).1 (by decide) (by decide) (by decide),
   (claim8_amended envFix noteEmptyModel).2.1 (by decide) (by decide) (by decide),
   (claim8_amended envFix eventEmptyModel).2.2.1 (by decide) (by decide) (by decide),
   (claim8_amended envFix eventScheduleModel).2.2.2.1 (by decide) (by decide) (by decide)
     (by decide) (by decide) rfl,
   (claim8_amended envFix noteAskModel).2.2.2.2.1 (by decide) (by decide) (by decide)
     (by decide) (by decide) (by decide) (by decide) (by decide) (by decide),
   (claim8_amended envFix eventAskModel).2.2.2.2.2.1 (by decide) (by decide) (by decide)
     (by decide) (by decide) (by decide) (by decide) (by decide) (by decide),
   (claim8_amended envFix tzModel).2.2.2.2.2.2 (by decide) (by decide) (by decide)
     (by decide) (by decide) rfl⟩

/-! ### Navigation projections of the model helpers (used for claim C9) -/

@[simp] theorem setMenuInput_state (m : Model) (p : Str) :
    (m.setMenuInput p).state = m.state := rfl

@[simp] theorem setMenuInput_prev (m : Model) (p : Str) :
    (m.setMenuInput p).prevStates = m.prevStates := rfl

@[simp] theorem resetMessages_state (m : Model) : m.resetMessages.state = m.state := rfl

@[simp] theorem resetMessages_prev (m : Model) :
    m.resetMessages.prevStates = m.prevStates := rfl

@[simp] theorem refreshDashboard_state (m : Model) :
    m.refreshDashboard.state = m.state := rfl

@[simp] theorem refreshDashboard_prev (m : Model) :
    m.refreshDashboard.prevStates = m.prevStates := rfl

@[simp] theorem ensureMenuInput_state (m : Model) (p : Str) :
    (m.ensureMenuInput p).state = m.state := by
  unfold Model.ensureMenuInput
  split <;> rfl

@[simp] theorem ensureMenuInput_prev (m : Model) (p : Str) :
    (m.ensureMenuInput p).prevStates = m.prevStates := by
  unfold Model.ensureMenuInput
  split <;> rfl

@[simp] theorem refreshAccounts_state (m : Model) :
    m.refreshAccounts.state = m.state := by
  unfold Model.refreshAccounts
  dsimp only
  split <;> rfl

@[simp] theorem refreshAccounts_prev (m : Model) :
    m.refreshAccounts.prevStates = m.prevStates := by
  unfold Model.refreshAccounts
  dsimp only
  split <;> rfl

@[simp] theorem accountsApplyFilter_state (m : Model) :
    (accountsApplyFilter m).state = m.state := by
  unfold accountsApplyFilter
  dsimp only
  split <;> rfl

@[simp] theorem accountsApplyFilter_prev (m : Model) :
    (accountsApplyFilter m).prevStates = m.prevStates := by
  unfold accountsApplyFilter
  dsimp only
  split <;> rfl

@[simp] theorem refreshAccountDetailAccount_state (m : Model) :
    m.refreshAccountDetailAccount.state = m.state := by
  unfold Model.refreshAccountDetailAccount
  split
  · rfl
  · split <;> rfl

@[simp] theorem refreshAccountDetailAccount_prev (m : Model) :
    m.refreshAccountDetailAccount.prevStates = m.prevStates := by
  unfold Model.refreshAccountDetailAccount
  split
  · rfl
  · split <;> rfl

@[simp] theorem loadAccountActivity_state (m : Model) :
    m.loadAccountActivity.state = m.state := by
  unfold Model.loadAccountActivity
  split <;> rfl

@[simp] theorem loadAccountActivity_prev (m : Model) :
    m.loadAccountActivity.prevStates = m.prevStates := by
  unfold Model.loadAccountActivity
  split <;> rfl

@[simp] theorem handleAccountImport_state (env : Env) (m : Model) (p : Str) :
    (m.handleAccountImport env p).state = m.state := by
  unfold Model.handleAccountImport
  dsimp only
  split <;> rfl

@[simp] theorem handleAccountImport_prev (env : Env) (m : Model) (p : Str) :
    (m.handleAccountImport env p).prevStates = m.prevStates := by
  unfold Model.handleAccountImport
  dsimp only
  split <;> rfl

@[simp] theorem pushState_state (m : Model) (v : ViewState) :
    (m.pushState v).state = v := rfl

@[simp] theorem pushState_prev (m : Model) (v : ViewState) :
    (m.pushState v).prevStates = m.prevStates ++ [m.state] := rfl

@[simp] theorem popState_state (m : Model) :
    m.popState.state =
      if m.prevStates.isEmpty then ViewState.mainMenu
      else m.prevStates.getLastD ViewState.mainMenu := by
  unfold Model.popState
  split <;> simp_all

@[simp] theorem popState_prev (m : Model) :
    m.popState.prevStates =
      if m.prevStates.isEmpty then m.prevStates else m.prevStates.dropLast := by
  unfold Model.popState
  split <;> simp_all

@[simp] theorem openAccountDetail_state (m : Model) (a : Account) :
    (m.openAccountDetail a).state = ViewState.accountDetail := by
  unfold Model.openAccountDetail
  simp

@[simp] theorem openAccountDetail_prev (m : Model) (a : Account) :
    (m.openAccountDetail a).prevStates = m.prevStates ++ [m.state] := by
  unfold Model.openAccountDetail
  simp

@[simp] theorem completeNoteSave_state (m : Model) (msg : Str) :
    (m.completeNoteSave msg).state =
      (Model.popState { m with noteWizard := newNoteWizard none, infoMessage := msg }).state := by
  unfold Model.completeNoteSave
  dsimp only
  repeat' split
  all_goals simp

@[simp] theorem completeNoteSave_prev (m : Model) (msg : Str) :
    (m.completeNoteSave msg).prevStates =
      (Model.popState
        { m with noteWizard := newNoteWizard none, infoMessage := msg }).prevStates := by
  unfold Model.completeNoteSave
  dsimp only
  repeat' split
  all_goals simp

@[simp] theorem completeEventSave_state (m : Model) (msg : Str) :
    (m.completeEventSave msg).state =
      (Model.popState { m with eventWizard := newEventWizard none, infoMessage := msg }).state := by
  unfold Model.completeEventSave
  dsimp only
  repeat' split
  all_goals simp

@[simp] theorem completeEventSave_prev (m : Model) (msg : Str) :
    (m.completeEventSave msg).prevStates =
      (Model.popState
        { m with eventWizard := newEventWizard none, infoMessage := msg }).prevStates := by
  unfold Model.completeEventSave
  dsimp only
  repeat' split
  all_goals simp

@[simp] theorem accountFormCancel_state (m : Model) :
    (accountFormCancel m).state = m.popState.state := by
  unfold accountFormCancel
  dsimp only
  repeat' split
  all_goals simp

@[simp] theorem accountFormCancel_prev (m : Model) :
    (accountFormCancel m).prevStates = m.popState.prevStates := by
  unfold accountFormCancel
  dsimp only
  repeat' split
  all_goals simp

@[simp] theorem accountFormFinish_state (m : Model) (a : Account) :
    (accountFormFinish m a).state = m.popState.state := by
  unfold accountFormFinish
  dsimp only
  repeat' split
  all_goals simp

@[simp] theorem accountFormFinish_prev (m : Model) (a : Account) :
    (accountFormFinish m a).prevStates = m.popState.prevStates := by
  unfold accountFormFinish
  dsimp only
  repeat' split
  all_goals simp

theorem saveNote_nav (env : Env) (m : Model) (acc : Option Int) (m2 : Model)
    (h : m.saveNote env acc = .ok m2) :
    m2.state = m.state ∧ m2.prevStates = m.prevStates := by
  unfold Model.saveNote at h
  dsimp only at h
  split at h
  · exact absurd h (by simp)
  · cases h
    exact ⟨rfl, rfl⟩

theorem saveEvent_nav (env : Env) (m : Model) (acc : Option Int) (m2 : Model)
    (h : m.saveEvent env acc = .ok m2) :
    m2.state = m.state ∧ m2.prevStates = m.prevStates := by
  unfold Model.saveEvent at h
  dsimp only at h
  split at h
  · exact absurd h (by simp)
  · split at h
    · exact absurd h (by simp)
    · cases h
      exact ⟨rfl, rfl⟩

/-- One step of the session preserves the navigation shape invariant. -/
theorem update_preserves_navOK (env : Env) (m : Model) (msg : Msg) (h : navOK m) :
    navOK (update env m msg).1 := by
  unfold navOK at h ⊢
  simp only [allowedConfigs, List.mem_cons, List.not_mem_nil, or_false,
    Prod.mk.injEq] at h
  obtain ⟨hs, hp⟩ | ⟨hs, hp⟩ | ⟨hs, hp⟩ | ⟨hs, hp⟩ | ⟨hs, hp⟩ | ⟨hs, hp⟩ | ⟨hs, hp⟩ |
    ⟨hs, hp⟩ | ⟨hs, hp⟩ | ⟨hs, hp⟩ | ⟨hs, hp⟩ | ⟨hs, hp⟩ := h <;>
  rcases msg with s | _ | _ <;>
  simp only [update, hs, updateMainMenu, updateAccounts, updateAccountDetail,
    updateAccountForm, updateCreateChoice, updateNoteWizard, updateEventWizard,
    updateDashboard, updateSettings] <;>
  (try dsimp only) <;>
  (repeat' split) <;>
  (try simp_all [allowedConfigs, List.getLastD, List.dropLast]) <;>
  (first
    | (obtain ⟨h1, h2⟩ := saveNote_nav _ _ _ _ (by assumption)
       simp_all [allowedConfigs, List.getLastD, List.dropLast])
    | (obtain ⟨h1, h2⟩ := saveEvent_nav _ _ _ _ (by assumption)
       simp_all [allowedConfigs, List.getLastD, List.dropLast]))

theorem newModel_navOK (st : Store) (name tz : Str) : navOK (newModel st name tz) := by
  unfold navOK
  simp [newModel, allowedConfigs]

theorem runSession_navOK (st : Store) (name tz : Str) (steps : List (Env × Msg)) :
    navOK (runSession st name tz steps) := by
  unfold runSession
  have h0 : navOK (newModel st name tz) := newModel_navOK st name tz
  revert h0
  generalize newModel st name tz = m0
  intro h0
  induction steps generalizing m0 with
  | nil => exact h0
  | cons p rest ih =>
    simp only [List.foldl_cons]
    exact ih _ (update_preserves_navOK p.1 m0 p.2 h0)

theorem navOK_not_mem (m : Model) (h : navOK m) : m.state ∉ m.prevStates := by
  unfold navOK at h
  simp only [allowedConfigs, List.mem_cons, List.not_mem_nil, or_false,
    Prod.mk.injEq] at h
  obtain ⟨hs, hp⟩ | ⟨hs, hp⟩ | ⟨hs, hp⟩ | ⟨hs, hp⟩ | ⟨hs, hp⟩ | ⟨hs, hp⟩ | ⟨hs, hp⟩ |
    ⟨hs, hp⟩ | ⟨hs, hp⟩ | ⟨hs, hp⟩ | ⟨hs, hp⟩ | ⟨hs, hp⟩ := h <;>
  rw [hs, hp] <;> decide

/-- C9: in every session state reachable from the initial model by
processing a sequence of input events, the active view is never an element
of the navigation stack - the stack holds only prior views. -/
theorem claim9_active_view_not_in_stack (st : Store) (name tz : Str)
    (steps : List (Env × Msg)) :
    (runSession st name tz steps).state ∉ (runSession st name tz steps).prevStates :=
  navOK_not_mem _ (runSession_navOK st name tz steps)

end CRMTerm
